import Mathlib

/-!
Verification development for the coordconv repository (a Go port of the
GEOTRANS 3.7 MGRS / UTM / UPS conversion suite).

Modelling conventions, used throughout:

* Go `float64` values are modelled by exact rationals (`ℚ`).  Floating-point
  constants are taken at their exact literal values; `math.Pi` is taken at the
  exact rational value of the float64 constant `math.Pi`
  (884279719003555 / 2^48).  Arithmetic is exact; the comparisons settled by
  the theorems below are far from representation boundaries, where rounding
  cannot change a branch.
* Go `int(x)` conversion of a float truncates toward zero; it is modelled by
  `goInt`.  `math.Mod` is modelled by `goMod` (remainder with the sign of the
  dividend).
* Go byte letter indices are modelled by `ℤ` (the vestigial `letters[j] < 0`
  check of `makeMGRSString` is kept meaningful this way).  The wrap-around of
  Go's `byte` at 256 is not modelled; all letter values reached under the
  theorems' hypotheses stay far below 256.
* The numerical kernels of the two map projections (the Transverse Mercator
  series and the Polar Stereographic formulas) evaluate transcendental
  functions; they are modelled by their observable behaviour: a record of
  conversion functions (`TMBehavior`, `PSBehavior`).  The wrapper logic that
  the claims are about (range checks, zone selection, letter derivation,
  error propagation, field mutation) is translated from the source
  line by line, and every theorem quantifies over all possible kernel
  behaviours, so each proved statement holds in particular for the real
  kernels.
* A Go function returning `(T, error)` is modelled as `Except Err T`; the Go
  convention of returning the zero value of `T` together with a non-nil error
  is reproduced at call sites that discard the error.  A Go runtime panic
  (index out of range) is modelled by the `Outcome.panic` constructor.
-/

/-- Go errors are modelled by their message strings, kept verbatim. -/
abbrev Err := String

/-- Result of a Go call that can also terminate the program with a runtime
panic (index out of range), in addition to returning a value or an error. -/
inductive Outcome (α : Type) where
  | panic : Outcome α
  | err : Err → Outcome α
  | ok : α → Outcome α
deriving DecidableEq, Repr

/-- The exact rational value of the float64 constant `math.Pi`. -/
def mathPi : ℚ := 884279719003555 / 281474976710656

/-- Go `int(x)` conversion of a float: truncation toward zero. -/
def goInt (q : ℚ) : ℤ := if q < 0 then ⌈q⌉ else ⌊q⌋

/-- Go `math.Mod(x, y)`: remainder with the sign of the dividend,
`x - trunc(x/y)*y`. -/
def goMod (x y : ℚ) : ℚ := x - y * (goInt (x / y) : ℚ)

/-- Plane map-projection output (easting/northing in meters); `MapCoords` in
the source. -/
structure MapCoords where
  Easting : ℚ
  Northing : ℚ
deriving DecidableEq, Repr

/-- Geodetic coordinate in radians; `s2.LatLng` in the source. -/
structure LatLng where
  Lat : ℚ
  Lng : ℚ
deriving DecidableEq, Repr

/-- Hemisphere constants from ups.go (`HemisphereInvalid`, `HemisphereNorth`,
`HemisphereSouth`). -/
inductive Hemisphere where
  | Invalid : Hemisphere
  | North : Hemisphere
  | South : Hemisphere
deriving DecidableEq, Repr

/-- UTM coordinate from utm.go. -/
structure UTMCoord where
  Zone : ℤ
  Hemisphere : Hemisphere
  Easting : ℚ
  Northing : ℚ
deriving DecidableEq, Repr

/-- UPS coordinate from ups.go. -/
structure UPSCoord where
  Hemisphere : Hemisphere
  Easting : ℚ
  Northing : ℚ
deriving DecidableEq, Repr

/-- Observable behaviour of a `TransverseMercator` instance: its two
conversion methods.  The numerical series kernel is not given a fixed
interpretation; theorems below hold for every behaviour. -/
structure TMBehavior where
  convertFromGeodetic : LatLng → Except Err MapCoords
  convertToGeodetic : MapCoords → Except Err LatLng

/-- Observable behaviour of a `PolarStereographic` instance. -/
structure PSBehavior where
  ConvertFromGeodetic : LatLng → Except Err MapCoords
  ConvertToGeodetic : MapCoords → Except Err LatLng

/-- The UTM converter state from utm.go: ellipsoid code, instance-level zone
override, and the 60 per-zone TransverseMercator sub-converters (modelled by
their behaviour, indexed by zone). -/
structure UTM where
  ellipsCode : String
  utmOverride : ℤ
  transverseMercatorMap : ℤ → TMBehavior

/-- The UPS converter state from ups.go.  `UPSOriginLatitude` is a plain
mutable field of the Go struct; the conversion methods below are therefore
modelled in state-passing style, returning the updated `UPS` record. -/
structure UPS where
  semiMajorAxis : ℚ
  flattening : ℚ
  UPSOriginLatitude : ℚ
  polarStereographicMapN : PSBehavior
  polarStereographicMapS : PSBehavior

/-- The MGRS converter state from mgrs.go. -/
structure MGRS where
  semiMajorAxis : ℚ
  flattening : ℚ
  ups : UPS
  utm : UTM
  MGRSEllipsoidCode : String

-- Constants from ups.go / utm.go / mgrs.go, at their exact rational values.

/-- Constant `epsilonRadians` from ups.go (1.75e-7). -/
def epsilonRadians : ℚ := 1.75e-7

/-- Constant `utmMinLat` from utm.go (-80.5 degrees in radians). -/
def utmMinLat : ℚ := (-80.5 * mathPi) / 180

/-- Constant `utmMaxLat` from utm.go (84.5 degrees in radians). -/
def utmMaxLat : ℚ := (84.5 * mathPi) / 180

/-- Constant `utmMinEasting` from utm.go. -/
def utmMinEasting : ℚ := 100000

/-- Constant `utmMaxEasting` from utm.go. -/
def utmMaxEasting : ℚ := 900000

/-- Constant `utmMinNorthing` from utm.go. -/
def utmMinNorthing : ℚ := 0

/-- Constant `utmMaxNorthing` from utm.go. -/
def utmMaxNorthing : ℚ := 10000000

/-- Constant `upsFalseEasting` from ups.go. -/
def upsFalseEasting : ℚ := 2000000

/-- Constant `upsFalseNorthing` from ups.go. -/
def upsFalseNorthing : ℚ := 2000000

/-- Constant `upsMaxLat` from ups.go (90 degrees in radians). -/
def upsMaxLat : ℚ := 90 * (mathPi / 180)

/-- Constant `upsMaxOriginLat` from ups.go (81.114528 degrees in radians). -/
def upsMaxOriginLat : ℚ := 81.114528 * (mathPi / 180)

/-- Constant `upsMinNorthLat` from ups.go (83.5 degrees in radians). -/
def upsMinNorthLat : ℚ := 83.5 * (mathPi / 180)

/-- Constant `upsMaxSouthLat` from ups.go (-79.5 degrees in radians). -/
def upsMaxSouthLat : ℚ := -79.5 * (mathPi / 180)

/-- Constant `upsMinEastNorth` from ups.go. -/
def upsMinEastNorth : ℚ := 0

/-- Constant `upsMaxEastNorth` from ups.go. -/
def upsMaxEastNorth : ℚ := 4000000

/-- Constant `espilon2` from mgrs.go (sic, 4.99e-4). -/
def espilon2 : ℚ := 4.99e-4

/-- Constant `mgrsMaxPrecision` from mgrs.go. -/
def mgrsMaxPrecision : ℤ := 5

/-- Constant `minMGRSNonPolarLat` from mgrs.go (-80 degrees in radians). -/
def minMGRSNonPolarLat : ℚ := -80 * (mathPi / 180)

/-- Constant `maxMGRSNonPolarLat` from mgrs.go (84 degrees in radians). -/
def maxMGRSNonPolarLat : ℚ := 84 * (mathPi / 180)

/-- Constant `mgrsMinEasting` from mgrs.go. -/
def mgrsMinEasting : ℚ := 100000

/-- Constant `mgrsMaxEasting` from mgrs.go. -/
def mgrsMaxEasting : ℚ := 900000

/-- Constant `mgrsMinNorthing` from mgrs.go. -/
def mgrsMinNorthing : ℚ := 0

/-- Constant `mgrsMaxNorthing` from mgrs.go. -/
def mgrsMaxNorthing : ℚ := 10000000

-- Letter index constants from mgrs.go.

/-- Letter index constant from mgrs.go. -/
def letterA : ℤ := 0

/-- Letter index constant from mgrs.go. -/
def letterB : ℤ := 1

/-- Letter index constant from mgrs.go. -/
def letterC : ℤ := 2

/-- Letter index constant from mgrs.go. -/
def letterD : ℤ := 3

/-- Letter index constant from mgrs.go. -/
def letterE : ℤ := 4

/-- Letter index constant from mgrs.go. -/
def letterF : ℤ := 5

/-- Letter index constant from mgrs.go. -/
def letterG : ℤ := 6

/-- Letter index constant from mgrs.go. -/
def letterH : ℤ := 7

/-- Letter index constant from mgrs.go. -/
def letterI : ℤ := 8

/-- Letter index constant from mgrs.go. -/
def letterJ : ℤ := 9

/-- Letter index constant from mgrs.go. -/
def letterK : ℤ := 10

/-- Letter index constant from mgrs.go. -/
def letterL : ℤ := 11

/-- Letter index constant from mgrs.go. -/
def letterM : ℤ := 12

/-- Letter index constant from mgrs.go. -/
def letterN : ℤ := 13

/-- Letter index constant from mgrs.go. -/
def letterO : ℤ := 14

/-- Letter index constant from mgrs.go. -/
def letterP : ℤ := 15

/-- Letter index constant from mgrs.go. -/
def letterQ : ℤ := 16

/-- Letter index constant from mgrs.go. -/
def letterR : ℤ := 17

/-- Letter index constant from mgrs.go. -/
def letterS : ℤ := 18

/-- Letter index constant from mgrs.go. -/
def letterT : ℤ := 19

/-- Letter index constant from mgrs.go. -/
def letterU : ℤ := 20

/-- Letter index constant from mgrs.go. -/
def letterV : ℤ := 21

/-- Letter index constant from mgrs.go. -/
def letterW : ℤ := 22

/-- Letter index constant from mgrs.go. -/
def letterX : ℤ := 23

/-- Letter index constant from mgrs.go. -/
def letterY : ℤ := 24

/-- Letter index constant from mgrs.go. -/
def letterZ : ℤ := 25

-- ## UTM converter (utm.go)

/-- Special zone cases over southern Norway and Svalbard, from the final
`else` branch of the zone-override logic in `UTM.ConvertFromGeodetic`
(utm.go lines 181-203): a chain of conditional reassignments of `tempZone`. -/
def specialZones (LatDegrees LongDegrees tempZone : ℤ) : ℤ :=
  let z1 := if LatDegrees > 55 ∧ LatDegrees < 64 ∧ LongDegrees > -1 ∧ LongDegrees < 3 then 31 else tempZone
  let z2 := if LatDegrees > 55 ∧ LatDegrees < 64 ∧ LongDegrees > 2 ∧ LongDegrees < 12 then 32 else z1
  let z3 := if LatDegrees > 71 ∧ LongDegrees > -1 ∧ LongDegrees < 9 then 31 else z2
  let z4 := if LatDegrees > 71 ∧ LongDegrees > 8 ∧ LongDegrees < 21 then 33 else z3
  let z5 := if LatDegrees > 71 ∧ LongDegrees > 20 ∧ LongDegrees < 33 then 35 else z4
  if LatDegrees > 71 ∧ LongDegrees > 32 ∧ LongDegrees < 42 then 37 else z5

/-- Tail of `UTM.ConvertFromGeodetic` after the natural zone has been
computed (utm.go lines 158-233): zone-override acceptance, Norway/Svalbard
special cases, hemisphere/false-northing selection, delegation to the
selected zone's TransverseMercator, and output range validation. -/
def utmRest (u : UTM) (latitude longitude : ℚ)
    (LatDegrees LongDegrees tempZone utmZoneOverride : ℤ) : Except Err UTMCoord :=
  let zr : Except Err ℤ :=
    if utmZoneOverride ≠ 0 then
      if tempZone = 1 ∧ utmZoneOverride = 60 then .ok utmZoneOverride
      else if tempZone = 60 ∧ utmZoneOverride = 1 then .ok utmZoneOverride
      else if (tempZone - 1 ≤ utmZoneOverride) ∧ (utmZoneOverride ≤ tempZone + 1) then .ok utmZoneOverride
      else .error "zone out of range"
    else if u.utmOverride ≠ 0 then
      if tempZone = 1 ∧ u.utmOverride = 60 then .ok u.utmOverride
      else if tempZone = 60 ∧ u.utmOverride = 1 then .ok u.utmOverride
      else if (tempZone - 1 ≤ u.utmOverride) ∧ (u.utmOverride ≤ tempZone + 1) then .ok u.utmOverride
      else .error "zone out of range"
    else
      .ok (specialZones LatDegrees LongDegrees tempZone)
  match zr with
  | .error e => .error e
  | .ok tz =>
    let FalseNorthing : ℚ := if latitude < 0 then 10000000 else 0
    let hemisphere : Hemisphere := if latitude < 0 then .South else .North
    match (u.transverseMercatorMap tz).convertFromGeodetic ⟨latitude, longitude⟩ with
    | .error e => .error e
    | .ok tmc =>
      let easting := tmc.Easting
      let northing := tmc.Northing + FalseNorthing
      if (easting < utmMinEasting) ∨ (easting > utmMaxEasting) then .error "easting out of range"
      else if (northing < utmMinNorthing) ∨ (northing > utmMaxNorthing) then .error "northing out of range"
      else .ok ⟨tz, hemisphere, easting, northing⟩

/-- Translation of `UTM.ConvertFromGeodetic` (utm.go lines 121-234). -/
def UTM.ConvertFromGeodetic (u : UTM) (geodeticCoordinates : LatLng)
    (utmZoneOverride : ℤ) : Except Err UTMCoord :=
  let longitude := geodeticCoordinates.Lng
  let latitude := geodeticCoordinates.Lat
  if (latitude < utmMinLat - epsilonRadians) ∨ (latitude ≥ utmMaxLat + epsilonRadians) then
    .error "latitude out of range "
  else if (longitude < -mathPi - epsilonRadians) ∨ (longitude > 2 * mathPi + epsilonRadians) then
    .error "longitude out of range"
  else
    let latitude := if (latitude > -1.0e-9) ∧ (latitude < 0) then 0 else latitude
    let longitude := if longitude < 0 then longitude + 2 * mathPi else longitude
    let LatDegrees := goInt (latitude * 180 / mathPi)
    let LongDegrees := goInt (longitude * 180 / mathPi)
    let tempZone : ℤ :=
      if longitude < mathPi then goInt (31 + ((longitude + 1.0e-10) * 180 / mathPi) / 6)
      else goInt ((((longitude + 1.0e-10) * 180 / mathPi) / 6) - 29)
    if tempZone > 60 then
      utmRest u latitude longitude LatDegrees LongDegrees 1 utmZoneOverride
    else if tempZone < 0 then .error "longitude out of range"
    else utmRest u latitude longitude LatDegrees LongDegrees tempZone utmZoneOverride

/-- Translation of `UTM.ConvertToGeodetic` (utm.go lines 239-278). -/
def UTM.ConvertToGeodetic (u : UTM) (utmCoordinates : UTMCoord) : Except Err LatLng :=
  let zone := utmCoordinates.Zone
  let hemisphere := utmCoordinates.Hemisphere
  let easting := utmCoordinates.Easting
  let northing := utmCoordinates.Northing
  if (zone < 1) ∨ (zone > 60) then .error "zone out of range"
  else if (hemisphere ≠ .South) ∧ (hemisphere ≠ .North) then .error "hemisphere out of range"
  else if (easting < utmMinEasting) ∨ (easting > utmMaxEasting) then .error "easting out of range"
  else if (northing < utmMinNorthing) ∨ (northing > utmMaxNorthing) then .error "northing out of range"
  else
    let FalseNorthing : ℚ := if hemisphere = .South then 10000000 else 0
    match (u.transverseMercatorMap zone).convertToGeodetic ⟨easting, northing - FalseNorthing⟩ with
    | .error e => .error e
    | .ok geodeticCoordinates =>
      if (geodeticCoordinates.Lat < utmMinLat - epsilonRadians) ∨
          (geodeticCoordinates.Lat ≥ utmMaxLat + epsilonRadians) then
        .error "latitude out of range "
      else .ok geodeticCoordinates

-- ## UPS converter (ups.go)

/-- Translation of `UPS.ConvertFromGeodetic` (ups.go lines 75-114).  The Go
method mutates the receiver's `UPSOriginLatitude` field; the model returns
the updated record together with the result.  The error returned by the
Polar Stereographic sub-conversion is discarded in the source
(`polarStereographicCoordinates, _ := ...`); on error the Go zero value
`MapCoords{}` is used, which the model reproduces. -/
def UPS.ConvertFromGeodetic (u : UPS) (geodeticCoordinates : LatLng) :
    UPS × Except Err UPSCoord :=
  let longitude := geodeticCoordinates.Lng
  let latitude := geodeticCoordinates.Lat
  if (latitude < -upsMaxLat) ∨ (latitude > upsMaxLat) then
    (u, .error "latitude out of range")
  else if (latitude < 0) ∧ (latitude ≥ upsMaxSouthLat + epsilonRadians) then
    (u, .error "latitude out of range")
  else if (latitude ≥ 0) ∧ (latitude < upsMinNorthLat - epsilonRadians) then
    (u, .error "latitude out of range")
  else if (longitude < -mathPi) ∨ (longitude > 2 * mathPi) then
    (u, .error "longitude out of range")
  else
    let u' := if latitude < 0 then { u with UPSOriginLatitude := -upsMaxOriginLat }
              else { u with UPSOriginLatitude := upsMaxOriginLat }
    let polarStereographic := if latitude < 0 then u.polarStereographicMapS
                              else u.polarStereographicMapN
    let hemisphere : Hemisphere := if latitude < 0 then .South else .North
    let polarStereographicCoordinates : MapCoords :=
      match polarStereographic.ConvertFromGeodetic geodeticCoordinates with
      | .ok v => v
      | .error _ => ⟨0, 0⟩
    (u', .ok ⟨hemisphere, polarStereographicCoordinates.Easting,
              polarStereographicCoordinates.Northing⟩)

/-- Translation of `UPS.ConvertToGeodetic` (ups.go lines 119-166), in the
same state-passing style. -/
def UPS.ConvertToGeodetic (u : UPS) (upsCoordinates : UPSCoord) :
    UPS × Except Err LatLng :=
  let hemisphere := upsCoordinates.Hemisphere
  let easting := upsCoordinates.Easting
  let northing := upsCoordinates.Northing
  if (hemisphere ≠ .North) ∧ (hemisphere ≠ .South) then
    (u, .error "hemisphere invalid")
  else if (easting < upsMinEastNorth) ∨ (easting > upsMaxEastNorth) then
    (u, .error "easting out of range")
  else if (northing < upsMinEastNorth) ∨ (northing > upsMaxEastNorth) then
    (u, .error "northing out of range")
  else
    let u' := if hemisphere = .North then { u with UPSOriginLatitude := upsMaxOriginLat }
              else { u with UPSOriginLatitude := -upsMaxOriginLat }
    let polarStereographic := if hemisphere = .North then u.polarStereographicMapN
                              else u.polarStereographicMapS
    match polarStereographic.ConvertToGeodetic ⟨easting, northing⟩ with
    | .error e => (u', .error e)
    | .ok geodeticCoordinates =>
      let latitude := geodeticCoordinates.Lat
      if (latitude < 0) ∧ (latitude ≥ upsMaxSouthLat + epsilonRadians) then
        (u', .error "resulting latitude out of range")
      else if (latitude ≥ 0) ∧ (latitude < upsMinNorthLat - epsilonRadians) then
        (u', .error "resulting latitude out of range")
      else (u', .ok geodeticCoordinates)

-- ## MGRS tables and helpers (mgrs.go)

/-- Row of the fixed latitude band table from mgrs.go (degrees for the
north/south bounds, meters for the northing fields). -/
structure latitudeBand where
  letter : ℤ
  minNorthing : ℚ
  north : ℚ
  south : ℚ
  northingOffset : ℚ
deriving DecidableEq, Repr

/-- The 20-row latitude band table `latitudeBands` from mgrs.go. -/
def latitudeBands : List latitudeBand :=
  [⟨letterC, 1100000, -72, -80.5, 0⟩,
   ⟨letterD, 2000000, -64, -72, 2000000⟩,
   ⟨letterE, 2800000, -56, -64, 2000000⟩,
   ⟨letterF, 3700000, -48, -56, 2000000⟩,
   ⟨letterG, 4600000, -40, -48, 4000000⟩,
   ⟨letterH, 5500000, -32, -40, 4000000⟩,
   ⟨letterJ, 6400000, -24, -32, 6000000⟩,
   ⟨letterK, 7300000, -16, -24, 6000000⟩,
   ⟨letterL, 8200000, -8, -16, 8000000⟩,
   ⟨letterM, 9100000, 0, -8, 8000000⟩,
   ⟨letterN, 0, 8, 0, 0⟩,
   ⟨letterP, 800000, 16, 8, 0⟩,
   ⟨letterQ, 1700000, 24, 16, 0⟩,
   ⟨letterR, 2600000, 32, 24, 2000000⟩,
   ⟨letterS, 3500000, 40, 32, 2000000⟩,
   ⟨letterT, 4400000, 48, 40, 4000000⟩,
   ⟨letterU, 5300000, 56, 48, 4000000⟩,
   ⟨letterV, 6200000, 64, 56, 6000000⟩,
   ⟨letterW, 7000000, 72, 64, 6000000⟩,
   ⟨letterX, 7900000, 84.5, 72, 6000000⟩]

/-- Index into `latitudeBands`, total via a default row (every use below is
in bounds). -/
def latitudeBandsGet (i : ℤ) : latitudeBand :=
  latitudeBands.getD i.toNat ⟨letterC, 1100000, -72, -80.5, 0⟩

/-- Row of the fixed UPS constant table from mgrs.go. -/
structure upsConstant where
  letter : ℤ
  ltr2LowValue : ℤ
  ltr2HighValue : ℤ
  ltr3HighValue : ℤ
  falseEasting : ℚ
  falseNorthing : ℚ
deriving DecidableEq, Repr

/-- The 4-row table `upsConstants` from mgrs.go. -/
def upsConstants : List upsConstant :=
  [⟨letterA, letterJ, letterZ, letterZ, 800000, 800000⟩,
   ⟨letterB, letterA, letterR, letterZ, 2000000, 800000⟩,
   ⟨letterY, letterJ, letterZ, letterP, 800000, 1300000⟩,
   ⟨letterZ, letterA, letterJ, letterP, 2000000, 1300000⟩]

/-- Index into `upsConstants`, total via a default row (every use below is
in bounds). -/
def upsConstantsGet (i : ℤ) : upsConstant :=
  upsConstants.getD i.toNat ⟨letterA, letterJ, letterZ, letterZ, 800000, 800000⟩

/-- Translation of `computeScale` (mgrs.go lines 454-471). -/
def computeScale (prec : ℤ) : ℚ :=
  if prec = 0 then 1.0e5
  else if prec = 1 then 1.0e4
  else if prec = 2 then 1.0e3
  else if prec = 3 then 1.0e2
  else if prec = 4 then 1.0e1
  else if prec = 5 then 1.0e0
  else 1.0e5

/-- Translation of `getLatitudeLetter` (mgrs.go lines 954-971). -/
def getLatitudeLetter (latitude : ℚ) : Except Err ℤ :=
  let Lat72 := 72 * (mathPi / 180)
  let Lat845 := 84.5 * (mathPi / 180)
  let Lat80 := 80 * (mathPi / 180)
  let Lat805 := 80.5 * (mathPi / 180)
  let Lat8 := 8 * (mathPi / 180)
  if latitude ≥ Lat72 ∧ latitude < Lat845 then .ok letterX
  else if latitude > -Lat805 ∧ latitude < Lat72 then
    let band := goInt ((latitude + Lat80) / Lat8 + 1.0e-12)
    let band := if band < 0 then 0 else band
    .ok (latitudeBandsGet band).letter
  else .error "latitude out of range"

/-- Translation of `MGRS.getGridValues` (mgrs.go lines 607-651); returns
`(ltr2LowValue, ltr2HighValue, patternOffset)`. -/
def MGRS.getGridValues (m : MGRS) (zone : ℤ) : ℤ × ℤ × ℚ :=
  let setNumber := zone % 6
  let setNumber := if setNumber = 0 then 6 else setNumber
  let aaPattern : Bool :=
    ¬(m.MGRSEllipsoidCode = "CC" ∨ m.MGRSEllipsoidCode = "CD" ∨
      m.MGRSEllipsoidCode = "BR" ∨ m.MGRSEllipsoidCode = "BN")
  let lohi : ℤ × ℤ :=
    if setNumber = 1 ∨ setNumber = 4 then (letterA, letterH)
    else if setNumber = 2 ∨ setNumber = 5 then (letterJ, letterR)
    else if setNumber = 3 ∨ setNumber = 6 then (letterS, letterZ)
    else (0, 0)
  let patternOffset : ℚ :=
    if aaPattern then (if setNumber % 2 = 0 then 500000 else 0)
    else (if setNumber % 2 = 0 then 1500000 else 1000000)
  (lohi.1, lohi.2, patternOffset)

/-- Translation of `MGRS.getLatitudeBandMinNorthing` (mgrs.go lines
813-827); returns `(minNorthing, northingOffset)`. -/
def MGRS.getLatitudeBandMinNorthing (_m : MGRS) (letter : ℤ) :
    Except Err (ℚ × ℚ) :=
  if (letter ≥ letterC) ∧ (letter ≤ letterH) then
    .ok ((latitudeBandsGet (letter - 2)).minNorthing, (latitudeBandsGet (letter - 2)).northingOffset)
  else if (letter ≥ letterJ) ∧ (letter ≤ letterN) then
    .ok ((latitudeBandsGet (letter - 3)).minNorthing, (latitudeBandsGet (letter - 3)).northingOffset)
  else if (letter ≥ letterP) ∧ (letter ≤ letterX) then
    .ok ((latitudeBandsGet (letter - 4)).minNorthing, (latitudeBandsGet (letter - 4)).northingOffset)
  else .error "invalid MGRS"

/-- Translation of `MGRS.inLatitudeRange` (mgrs.go lines 920-939). -/
def MGRS.inLatitudeRange (_m : MGRS) (letter : ℤ) (latitude border : ℚ) :
    Except Err Bool :=
  if (letter ≥ letterC) ∧ (letter ≤ letterH) then
    let north := (latitudeBandsGet (letter - 2)).north * mathPi / 180
    let south := (latitudeBandsGet (letter - 2)).south * mathPi / 180
    .ok (decide (((south - border) ≤ latitude) ∧ (latitude ≤ (north + border))))
  else if (letter ≥ letterJ) ∧ (letter ≤ letterN) then
    let north := (latitudeBandsGet (letter - 3)).north * mathPi / 180
    let south := (latitudeBandsGet (letter - 3)).south * mathPi / 180
    .ok (decide (((south - border) ≤ latitude) ∧ (latitude ≤ (north + border))))
  else if (letter ≥ letterP) ∧ (letter ≤ letterX) then
    let north := (latitudeBandsGet (letter - 4)).north * mathPi / 180
    let south := (latitudeBandsGet (letter - 4)).south * mathPi / 180
    .ok (decide (((south - border) ≤ latitude) ∧ (latitude ≤ (north + border))))
  else .error "invalid MGRS"

/-- The latitude-band consistency check at the end of `MGRS.toUTM`
(mgrs.go lines 762-806): the exact band is checked first; on failure the
two adjacent bands (with the C/X end-of-list and I/O adjustments) are
checked, and the point is accepted only when `prevInRange && nextInRange`
(the conjunction is as in the source). -/
def MGRS.latBandAdjCheck (m : MGRS) (letter0 : ℤ) (latitude border : ℚ) :
    Except Err Unit :=
  match m.inLatitudeRange letter0 latitude border with
  | .error e => .error e
  | .ok inRange =>
    if inRange then .ok ()
    else
      let prevBand := letter0 - 1
      let nextBand := letter0 + 1
      let prevBand := if letter0 = letterC then letter0 else prevBand
      let nextBand := if letter0 = letterX then letter0 else nextBand
      let prevBand := if prevBand = letterI ∨ prevBand = letterO then prevBand - 1 else prevBand
      let nextBand := if nextBand = letterI ∨ nextBand = letterO then nextBand + 1 else nextBand
      match m.inLatitudeRange prevBand latitude border with
      | .error e => .error e
      | .ok prevInRange =>
        match m.inLatitudeRange nextBand latitude border with
        | .error e => .error e
        | .ok nextInRange =>
          if prevInRange ∧ nextInRange then .ok ()
          else .error "MGRS invalid"

-- ## MGRS string construction (mgrs.go)

/-- Character of the alphabet string in `makeMGRSString`. -/
def alphabetChar (l : ℤ) : Char := Char.ofNat (65 + l.toNat)

/-- Zero-pad the decimal digits of a nonnegative integer to a given width;
helper for the `fmt.Fprintf` verbs of mgrs.go. -/
def zeroPadNat (w : ℕ) (n : ℕ) : String :=
  let s := toString n
  if s.length < w then String.mk (List.replicate (w - s.length) '0') ++ s else s

/-- Model of the verb `%2.2d` applied to the zone number in
`makeMGRSString`. -/
def fmt2d (z : ℤ) : String :=
  if z < 0 then "-" ++ zeroPadNat 2 (-z).toNat else zeroPadNat 2 z.toNat

/-- Model of the verb `%*.*d` with width and precision both equal to
`precision`, as used for the easting/northing digit fields in
`makeMGRSString`: the value is printed with at least `precision` digits
(zero padded); the value 0 with precision 0 prints nothing. -/
def fmtStarD (precision : ℤ) (v : ℤ) : String :=
  if v = 0 ∧ precision ≤ 0 then ""
  else if v < 0 then "-" ++ zeroPadNat precision.toNat (-v).toNat
  else zeroPadNat precision.toNat v.toNat

/-- Translation of `makeMGRSString` (mgrs.go lines 474-507).  The per-letter
validity check of the source loop is expressed with `List.any`; the local
shadowing constant `espilon2 = 4.99e-1` of the source appears as the literal
0.499. -/
def makeMGRSString (zone : ℤ) (letters : List ℤ) (easting northing : ℚ)
    (precision : ℤ) : Except Err String :=
  let zonePart := if zone ≠ 0 then fmt2d zone else ""
  if letters.any (fun l => l < 0 ∨ l ≥ 26) then .error "invalid letters"
  else
    let letterPart := String.mk (letters.map alphabetChar)
    let divisor := computeScale precision
    let e0 := goMod easting 100000
    let e1 := if e0 ≥ 99999.5 then (99999 : ℚ) else e0
    let east := goInt ((e1 + 0.499) / divisor)
    let n0 := goMod northing 100000
    let n1 := if n0 ≥ 99999.5 then (99999 : ℚ) else n0
    let north := goInt ((n1 + 0.499) / divisor)
    .ok (zonePart ++ letterPart ++ fmtStarD precision east ++ fmtStarD precision north)

-- ## MGRS encoding helpers (mgrs.go)

/-- Third-letter derivation shared by `MGRS.fromUPS` (mgrs.go lines 282-292)
and `MGRS.fromUTM` (mgrs.go lines 433-440): the raw 100 km row index with the
increments that skip the letters I and O. -/
def rowLetter (gridNorthing : ℚ) : ℤ :=
  let l := goInt (gridNorthing / 100000)
  let l := if l > letterH then l + 1 else l
  if l > letterN then l + 1 else l

/-- Second-letter derivation of `MGRS.fromUPS` (mgrs.go lines 294-315):
the raw index from the grid easting, with the branch-dependent increments. -/
def upsSecondLetter (ltr2LowValue : ℤ) (easting gridEasting : ℚ) : ℤ :=
  let l := ltr2LowValue + goInt (gridEasting / 100000)
  if easting < 2000000 then
    let l := if l > letterL then l + 3 else l
    if l > letterU then l + 2 else l
  else
    let l := if l > letterC then l + 2 else l
    let l := if l > letterH then l + 1 else l
    if l > letterL then l + 3 else l

/-- Second-letter derivation of `MGRS.fromUTM` (mgrs.go lines 442-445). -/
def fromUTMLetter1 (ltr2LowValue : ℤ) (easting : ℚ) : ℤ :=
  let l := ltr2LowValue + (goInt (easting / 100000) - 1)
  if (ltr2LowValue = letterJ) ∧ (l > letterN) then l + 1 else l

/-- The reduction loop `for gridNorthing >= 2000000 { gridNorthing -= 2000000 }`
of `MGRS.fromUTM` (mgrs.go lines 425-427). -/
def reduce2M (x : ℚ) : ℚ :=
  if h : x ≥ 2000000 then reduce2M (x - 2000000) else x
termination_by (⌈x / 2000000⌉).toNat
decreasing_by
  have h2 : ⌈x / 2000000 - 1⌉ = ⌈x / 2000000⌉ - 1 := by
    exact_mod_cast Int.ceil_sub_int (x / 2000000) 1
  have h3 : (x - 2000000) / 2000000 = x / 2000000 - 1 := by ring
  have h4 : (1 : ℤ) ≤ ⌈x / 2000000⌉ :=
    Int.one_le_ceil_iff.mpr (div_pos (by linarith) (by norm_num))
  rw [h3, h2]
  omega

/-- Translation of `MGRS.fromUPS` (mgrs.go lines 245-323). -/
def MGRS.fromUPS (_m : MGRS) (upsCoordinates : UPSCoord) (precision : ℤ) :
    Except Err String :=
  let hemisphere := upsCoordinates.Hemisphere
  let divisor := computeScale precision
  let easting := (goInt ((upsCoordinates.Easting + espilon2) / divisor) : ℚ) * divisor
  let northing := (goInt ((upsCoordinates.Northing + espilon2) / divisor) : ℚ) * divisor
  let lfe : ℤ × ℤ × ℚ × ℚ :=
    if hemisphere = .North then
      let l0 := if easting ≥ 2000000 then letterZ else letterY
      let index := l0 - 22
      (l0, (upsConstantsGet index).ltr2LowValue,
       (upsConstantsGet index).falseEasting, (upsConstantsGet index).falseNorthing)
    else
      let l0 := if easting ≥ 2000000 then letterB else letterA
      (l0, (upsConstantsGet l0).ltr2LowValue,
       (upsConstantsGet l0).falseEasting, (upsConstantsGet l0).falseNorthing)
  let letter0 := lfe.1
  let ltr2LowValue := lfe.2.1
  let falseEasting := lfe.2.2.1
  let falseNorthing := lfe.2.2.2
  let gridNorthing := northing - falseNorthing
  let letter2 := rowLetter gridNorthing
  let gridEasting := easting - falseEasting
  let letter1 := upsSecondLetter ltr2LowValue easting gridEasting
  makeMGRSString 0 [letter0, letter1, letter2] easting northing precision

-- ## Constructors modelled with the abstract projection kernel

/-- Type of the abstract Transverse Mercator numerical kernel: from the
constructor arguments of `NewTransverseMercator` to the instance's
behaviour. -/
abbrev TMCore :=
  ℚ → ℚ → ℚ → ℚ → ℚ → ℚ → ℚ → String → TMBehavior

/-- The validation sequence of `NewTransverseMercator`
(transversemercator.go lines 44-101), producing the abstract behaviour on
success.  Only the parameter checks are translated here; the series
coefficients themselves are treated separately (`generateCoefficients`
below, for the construction-state claims). -/
def NewTransverseMercatorB (tmCore : TMCore)
    (a f centralMeridian latitudeOfTrueScale falseEasting falseNorthing scaleFactor : ℚ)
    (ellipsoidCode : String) : Except Err TMBehavior :=
  if ellipsoidCode = "" then .error "missing ellipsoid code"
  else if a ≤ 0 then .error "Semi-major axis must be greater than zero"
  else if 1 / f < 150 then .error "inverse ellipsoid flattening out of range"
  else if (latitudeOfTrueScale < -mathPi / 2) ∨ (latitudeOfTrueScale > mathPi / 2) then
    .error "latitudeOfTrueScale out of range"
  else if (centralMeridian < -mathPi) ∨ (centralMeridian > 2 * mathPi) then
    .error "centralMeridian out of range"
  else if (scaleFactor < 0.1) ∨ (scaleFactor > 10) then
    .error "scale factor out of range"
  else .ok (tmCore a f centralMeridian latitudeOfTrueScale falseEasting falseNorthing
            scaleFactor ellipsoidCode)

/-- Central meridian of a UTM zone, from the loop of `NewUTM2`
(utm.go lines 100-105). -/
def centralMeridianOfZone (zone : ℤ) : ℚ :=
  if zone ≥ 31 then (6 * zone - 183 : ℤ) * mathPi / 180
  else (6 * zone + 177 : ℤ) * mathPi / 180

/-- Translation of `NewUTM2` (utm.go lines 70-116): parameter validation and
construction of the 60 per-zone sub-converters; the first construction error
is surfaced. -/
def NewUTM2 (tmCore : TMCore) (ellipsoidSemiMajorAxis ellipsoidFlattening : ℚ)
    (ellipsoidCode : String) (override : ℤ) : Except Err UTM :=
  if ellipsoidSemiMajorAxis ≤ 0 then .error "Semi-major axis must be greater than zero"
  else if (1 / ellipsoidFlattening < 250) ∨ (1 / ellipsoidFlattening > 350) then
    .error "Inverse flattening must be between 250 and 350"
  else if (override < 0) ∨ (override > 60) then .error "zone override out of range"
  else
    match (List.range 60).findSome? (fun k =>
      match NewTransverseMercatorB tmCore ellipsoidSemiMajorAxis ellipsoidFlattening
          (centralMeridianOfZone (k + 1)) 0 500000 0 0.9996 ellipsoidCode with
      | .error e => some e
      | .ok _ => none) with
    | some e => .error e
    | none => .ok ⟨ellipsoidCode, override, fun zone =>
        match NewTransverseMercatorB tmCore ellipsoidSemiMajorAxis ellipsoidFlattening
            (centralMeridianOfZone zone) 0 500000 0 0.9996 ellipsoidCode with
        | .ok b => b
        | .error _ => ⟨fun _ => .error "", fun _ => .error ""⟩⟩

-- ## MGRS encoding (mgrs.go)

/-- Translation of `MGRS.fromUTM` (mgrs.go lines 327-452).  Note the early
return `return "", nil` of the source when `getLatitudeLetter` fails: the
error is replaced by a success carrying the empty string. -/
def MGRS.fromUTM (tmCore : TMCore) (m : MGRS) (utmCoordinates : UTMCoord)
    (longitude latitude : ℚ) (precision : ℤ) : Except Err String :=
  match getLatitudeLetter latitude with
  | .error _ => .ok ""
  | .ok letter0 =>
    let Lat6 := 6 * (mathPi / 180)
    let pad := espilon2 / 6378137
    let naturalZone : ℤ :=
      if longitude < mathPi then goInt (31 + (longitude + pad) / Lat6)
      else goInt ((longitude + pad) / Lat6 - 29)
    let naturalZone := if naturalZone > 60 then 1 else naturalZone
    let step1 : Except Err (ℤ × ℚ × ℚ) :=
      if utmCoordinates.Zone ≠ naturalZone then
        match NewUTM2 tmCore m.semiMajorAxis m.flattening m.MGRSEllipsoidCode naturalZone with
        | .error e => .error e
        | .ok utmOverride =>
          match utmOverride.ConvertFromGeodetic ⟨latitude, longitude⟩ 0 with
          | .error e => .error e
          | .ok oc => .ok (oc.Zone, oc.Easting, oc.Northing)
      else .ok (utmCoordinates.Zone, utmCoordinates.Easting, utmCoordinates.Northing)
    match step1 with
    | .error e => .error e
    | .ok zen =>
      let zone := zen.1
      let easting := zen.2.1
      let northing := zen.2.2
      let override : ℤ :=
        if letter0 = letterV then
          if (zone = 31) ∧ (easting ≥ 500000) then 32 else 0
        else if letter0 = letterX then
          if (zone = 32) ∧ (easting < 500000) then 31
          else if ((zone = 32) ∧ (easting ≥ 500000)) ∨ ((zone = 34) ∧ (easting < 500000)) then 33
          else if ((zone = 34) ∧ (easting ≥ 500000)) ∨ ((zone = 36) ∧ (easting < 500000)) then 35
          else if (zone = 36) ∧ (easting ≥ 500000) then 37
          else 0
        else 0
      let step2 : Except Err (ℤ × ℚ × ℚ) :=
        if override ≠ 0 then
          match NewUTM2 tmCore m.semiMajorAxis m.flattening m.MGRSEllipsoidCode override with
          | .error e => .error e
          | .ok utmOverride =>
            match utmOverride.ConvertFromGeodetic ⟨latitude, longitude⟩ 0 with
            | .error e => .error e
            | .ok oc => .ok (oc.Zone, oc.Easting, oc.Northing)
        else .ok (zone, easting, northing)
      match step2 with
      | .error e => .error e
      | .ok zen2 =>
        let zone := zen2.1
        let divisor := computeScale precision
        let easting := (goInt ((zen2.2.1 + espilon2) / divisor) : ℚ) * divisor
        let northing := (goInt ((zen2.2.2 + espilon2) / divisor) : ℚ) * divisor
        let northing := if (latitude ≤ 0) ∧ (northing = 1.0e7) then 0 else northing
        let gv := m.getGridValues zone
        let ltr2LowValue := gv.1
        let patternOffset := gv.2.2
        let gridNorthing := reduce2M northing
        let gridNorthing := gridNorthing + patternOffset
        let gridNorthing := if gridNorthing ≥ 2000000 then gridNorthing - 2000000 else gridNorthing
        let letter2 := rowLetter gridNorthing
        let letter1 := fromUTMLetter1 ltr2LowValue easting
        makeMGRSString zone [letter0, letter1, letter2] easting northing precision

/-- Translation of `MGRS.ConvertFromGeodetic` (mgrs.go lines 142-184).  The
mutation of the shared `ups` sub-converter is dropped (the mutated field is
never read; see the UPS frame theorems). -/
def MGRS.ConvertFromGeodetic (tmCore : TMCore) (m : MGRS)
    (geodeticCoordinates : LatLng) (precision : ℤ) : Except Err String :=
  let latitude := geodeticCoordinates.Lat
  let longitude := geodeticCoordinates.Lng
  if (latitude < -mathPi / 2) ∨ (latitude > mathPi / 2) then
    .error "latitude out of range"
  else if (longitude < -mathPi - epsilonRadians) ∨ (longitude > 2 * mathPi + epsilonRadians) then
    .error "longitude out of range"
  else if (precision < 0) ∨ (precision > mgrsMaxPrecision) then
    .error "precision out of range"
  else if (latitude ≥ minMGRSNonPolarLat - epsilonRadians) ∧
      (latitude < maxMGRSNonPolarLat + epsilonRadians) then
    match m.utm.ConvertFromGeodetic geodeticCoordinates 0 with
    | .error e => .error e
    | .ok utmCoordinates => m.fromUTM tmCore utmCoordinates longitude latitude precision
  else
    match (m.ups.ConvertFromGeodetic geodeticCoordinates).2 with
    | .error e => .error e
    | .ok upsCoordinates => m.fromUPS upsCoordinates precision

-- ## MGRS decoding (mgrs.go)

/-- Byte view of a character, as produced by Go's `byte(b)` truncation of a
rune (the strings of interest are ASCII, where rune and byte coincide). -/
def byteOf (c : Char) : ℕ := c.toNat % 256

/-- Translation of `isdigit` (mgrs.go lines 940-942). -/
def isdigit (r : ℕ) : Bool := 48 ≤ r ∧ r ≤ 57

/-- Translation of `isalpha` (mgrs.go lines 944-947). -/
def isalpha (r : ℕ) : Bool := (97 ≤ r ∧ r ≤ 122) ∨ (65 ≤ r ∧ r ≤ 90)

/-- Translation of `toupper` (mgrs.go lines 948-950) on ASCII bytes. -/
def toupperB (r : ℕ) : ℕ := if 97 ≤ r ∧ r ≤ 122 then r - 32 else r

/-- The first scanning loop of `breakMGRSString` (mgrs.go lines 525-528):
`i := 0; for isdigit(tempMGRSString[i]) { i++ }`.  The loop has no bounds
check, so when every byte of the string is a digit (in particular for the
empty string) the access `tempMGRSString[i]` with `i = len` is out of range:
the result is `none`, modelling the Go runtime panic. -/
def scanDigitsNoBound : List ℕ → Option ℕ
  | [] => none
  | b :: rest => if isdigit b then (scanDigitsNoBound rest).map (· + 1) else some 0

/-- Decimal value of a digit-byte list, as parsed by `fmt.Sscanf` with the
verb `%d`. -/
def digitsVal (l : List ℕ) : ℤ := l.foldl (fun v b => 10 * v + ((b : ℤ) - 48)) 0

/-- Components of a broken-down MGRS string. -/
structure BrokenMGRS where
  zone : ℤ
  letters : List ℤ
  easting : ℚ
  northing : ℚ
  precision : ℤ
deriving DecidableEq, Repr

/-- Translation of `breakMGRSString` (mgrs.go lines 511-601).  The
character-validation loop (which errors on any rune that is neither a digit
nor a letter, including spaces) is expressed with `List.any`; the unbounded
first digit scan can panic (see `scanDigitsNoBound`). -/
def breakMGRSString (MGRSString : String) : Outcome BrokenMGRS :=
  let bs := MGRSString.data.map byteOf
  if bs.any (fun b => ¬isdigit b ∧ ¬isalpha b) then .err "invalid character"
  else
    match scanDigitsNoBound bs with
    | none => .panic
    | some numDigits =>
      if numDigits ≤ 2 then
        let zoneRes : Except Err ℤ :=
          if numDigits > 0 then
            let zone := digitsVal ((bs.take 2).takeWhile isdigit)
            if (zone < 1) ∨ (zone > 60) then .error "zone out of range" else .ok zone
          else .ok 0
        match zoneRes with
        | .error e => .err e
        | .ok zone =>
          let rest1 := bs.drop numDigits
          let numLetters := (rest1.takeWhile isalpha).length
          if numLetters = 3 then
            let l0 : ℤ := (toupperB (rest1.getD 0 0) : ℤ) - 65
            let l1 : ℤ := (toupperB (rest1.getD 1 0) : ℤ) - 65
            let l2 : ℤ := (toupperB (rest1.getD 2 0) : ℤ) - 65
            if (l0 = letterI) ∨ (l0 = letterO) then .err "invalid letter 0"
            else if (l1 = letterI) ∨ (l1 = letterO) then .err "invalid letter 1"
            else if (l2 = letterI) ∨ (l2 = letterO) then .err "invalid letter 2"
            else
              let ds := (rest1.drop 3).takeWhile isdigit
              let numDigits2 := ds.length
              if (numDigits2 ≤ 10) ∧ (numDigits2 % 2 = 0) then
                let n := numDigits2 / 2
                if n > 0 then
                  let east := digitsVal (ds.take n)
                  let north := digitsVal ((ds.drop n).take n)
                  let multiplier := computeScale n
                  .ok ⟨zone, [l0, l1, l2], (east : ℚ) * multiplier, (north : ℚ) * multiplier, n⟩
                else .ok ⟨zone, [l0, l1, l2], 0, 0, n⟩
              else .err "wrong number of digits"
          else .err "wrong number of letters"
      else .err "too few digits"

/-- Translation of `MGRS.toUTM` (mgrs.go lines 688-808). -/
def MGRS.toUTM (m : MGRS) (zone : ℤ) (letters : List ℤ)
    (easting northing : ℚ) (precision : ℤ) : Except Err UTMCoord :=
  let l0 := letters.getD 0 0
  let l1 := letters.getD 1 0
  let l2 := letters.getD 2 0
  if (l0 = letterX) ∧ ((zone = 32) ∨ (zone = 34) ∨ (zone = 36)) then
    .error "invalid letters"
  else if (l0 = letterV) ∧ (zone = 31) ∧ (l1 > letterD) then
    .error "invalid letters"
  else
    let hemisphere : Hemisphere := if l0 < letterN then .South else .North
    let gv := m.getGridValues zone
    let ltr2LowValue := gv.1
    let ltr2HighValue := gv.2.1
    let patternOffset := gv.2.2
    if (l1 < ltr2LowValue) ∨ (l1 > ltr2HighValue) ∨ (l2 > letterV) then
      .error "invalid letters"
    else
      let gridEasting : ℚ := ((l1 - ltr2LowValue + 1 : ℤ) : ℚ) * 100000
      let gridEasting := if (ltr2LowValue = letterJ) ∧ (l1 > letterO) then gridEasting - 100000
                         else gridEasting
      let rowLetterNorthing : ℚ := (l2 : ℚ) * 100000
      let rowLetterNorthing := if l2 > letterO then rowLetterNorthing - 100000
                               else rowLetterNorthing
      let rowLetterNorthing := if l2 > letterI then rowLetterNorthing - 100000
                               else rowLetterNorthing
      let rowLetterNorthing := if rowLetterNorthing ≥ 2000000 then rowLetterNorthing - 2000000
                               else rowLetterNorthing
      match m.getLatitudeBandMinNorthing l0 with
      | .error e => .error e
      | .ok mn =>
        let minNorthing := mn.1
        let northingOffset := mn.2
        let gridNorthing := rowLetterNorthing - patternOffset
        let gridNorthing := if gridNorthing < 0 then gridNorthing + 2000000 else gridNorthing
        let gridNorthing := gridNorthing + northingOffset
        let gridNorthing := if gridNorthing < minNorthing then gridNorthing + 2000000
                            else gridNorthing
        let easting := gridEasting + easting
        let northing := gridNorthing + northing
        let utmCoordinates : UTMCoord := ⟨zone, hemisphere, easting, northing⟩
        match m.utm.ConvertToGeodetic utmCoordinates with
        | .error e => .error e
        | .ok geodeticCoordinates =>
          let divisor := 100000 / computeScale precision
          match m.latBandAdjCheck l0 geodeticCoordinates.Lat (mathPi / 180 / divisor) with
          | .error e => .error e
          | .ok _ => .ok utmCoordinates

/-- Translation of `MGRS.toUPS` (mgrs.go lines 831-915). -/
def MGRS.toUPS (_m : MGRS) (letters : List ℤ) (easting northing : ℚ) :
    Except Err UPSCoord :=
  let l0 := letters.getD 0 0
  let l1 := letters.getD 1 0
  let l2 := letters.getD 2 0
  let cont := fun (hemisphere : Hemisphere) (uc : upsConstant) =>
    if (l1 < uc.ltr2LowValue) ∨ (l1 > uc.ltr2HighValue) ∨
        ((l1 = letterD) ∨ (l1 = letterE) ∨ (l1 = letterM) ∨ (l1 = letterN) ∨
         (l1 = letterV) ∨ (l1 = letterW)) ∨
        (l2 > uc.ltr3HighValue) then
      Except.error (α := UPSCoord) "Invalid MGRS string"
    else
      let gridNorthing : ℚ := (l2 : ℚ) * 100000 + uc.falseNorthing
      let gridNorthing := if l2 > letterI then gridNorthing - 100000 else gridNorthing
      let gridNorthing := if l2 > letterO then gridNorthing - 100000 else gridNorthing
      let gridEasting : ℚ := ((l1 - uc.ltr2LowValue : ℤ) : ℚ) * 100000 + uc.falseEasting
      let gridEasting :=
        if uc.ltr2LowValue ≠ letterA then
          let g := if l1 > letterL then gridEasting - 300000 else gridEasting
          if l1 > letterU then g - 200000 else g
        else
          let g := if l1 > letterC then gridEasting - 200000 else gridEasting
          let g := if l1 > letterI then g - 100000 else g
          if l1 > letterL then g - 300000 else g
      Except.ok ⟨hemisphere, gridEasting + easting, gridNorthing + northing⟩
  if (l0 = letterY) ∨ (l0 = letterZ) then
    cont .North (upsConstantsGet (l0 - 22))
  else if (l0 = letterA) ∨ (l0 = letterB) then
    cont .South (upsConstantsGet l0)
  else .error "Invalid MGRS string"

/-- Translation of `MGRS.ConvertToGeodetic` (mgrs.go lines 655-682).  The
runtime panic of `breakMGRSString` propagates; the mutation of the shared
`ups` sub-converter by the UPS path is dropped (the field is never read). -/
def MGRS.ConvertToGeodetic (m : MGRS) (mgrsorUSNGCoordinates : String) :
    Outcome LatLng :=
  match breakMGRSString mgrsorUSNGCoordinates with
  | .panic => .panic
  | .err e => .err e
  | .ok br =>
    if br.zone ≠ 0 then
      match m.toUTM br.zone br.letters br.easting br.northing br.precision with
      | .error e => .err e
      | .ok utmCoordinates =>
        match m.utm.ConvertToGeodetic utmCoordinates with
        | .error e => .err e
        | .ok geodeticCoordinates => .ok geodeticCoordinates
    else
      match m.toUPS br.letters br.easting br.northing with
      | .error e => .err e
      | .ok upsCoordinates =>
        match (m.ups.ConvertToGeodetic upsCoordinates).2 with
        | .error e => .err e
        | .ok geodeticCoordinates => .ok geodeticCoordinates

-- ## TransverseMercator coefficient generation (transversemercator.go)

/-- Coefficient list as produced by a table branch of `generateCoefficients`:
the caller's 8-element arrays are zero initialised and a table branch assigns
only the first six entries, so entries 6 and 7 stay 0. -/
def tableCoeffs (a0 a1 a2 a3 a4 a5 : ℚ) : List ℚ := [a0, a1, a2, a3, a4, a5, 0, 0]

/-- Translation of `generateCoefficients` (transversemercator.go lines
103-522): Helmert's n, the A/B series coefficients (from the fixed table
keyed by ellipsoid code, or from the closed-form polynomials in n for codes
not in the table), and the ratio R4/a.  Returns `(n1, aCoeff, bCoeff, R4oa)`. -/
def generateCoefficients (invfla : ℚ) (ellipsoidCode : String) :
    ℚ × List ℚ × List ℚ × ℚ :=
  let n1 := 1 / (2 * invfla - 1)
  let n2 := n1 * n1
  let n3 := n2 * n1
  let n4 := n3 * n1
  let n5 := n4 * n1
  let n6 := n5 * n1
  let n7 := n6 * n1
  let n8 := n7 * n1
  let n9 := n8 * n1
  let n10 := n9 * n1
  let ab : List ℚ × List ℚ :=
    if ellipsoidCode = "AA" ∨ ellipsoidCode = "AM" then
      (tableCoeffs 8.3474517669594013740e-04 7.554352936725572895e-07
        1.18487391005135489e-09 2.3946872955703565e-12
        5.610633978440270e-15 1.44858956458553e-17,
       tableCoeffs (-8.3474551646761162264e-04) (-5.863630361809676570e-08)
        (-1.65562038746920803e-10) (-2.1340335537652749e-13)
        (-3.720760760132477e-16) (-7.08304328877781e-19))
    else if ellipsoidCode = "EA" ∨ ellipsoidCode = "EB" ∨ ellipsoidCode = "EC" ∨ ellipsoidCode = "ED" ∨ ellipsoidCode = "EE" then
      (tableCoeffs 8.3064943111192510534e-04 7.480375027595025021e-07
        1.16750772278215999e-09 2.3479972304395461e-12
        5.474212231879573e-15 1.40642257446745e-17,
       tableCoeffs (-8.3064976590443772201e-04) (-5.805953517555717859e-08)
        (-1.63133251663416522e-10) (-2.0923797199593389e-13)
        (-3.630200927775259e-16) (-6.87666654919219e-19))
    else if ellipsoidCode = "BN" ∨ ellipsoidCode = "BR" then
      (tableCoeffs 8.3522527226849818552e-04 7.563048340614894422e-07
        1.18692075307408346e-09 2.4002054791393298e-12
        5.626801597980756e-15 1.45360057224474e-17,
       tableCoeffs (-8.3522561262703079182e-04) (-5.870409978661008580e-08)
        (-1.65848307463131468e-10) (-2.1389565927064571e-13)
        (-3.731493368666479e-16) (-7.10756898071999e-19))
    else if ellipsoidCode = "KA" ∨ ellipsoidCode = "HE" ∨ ellipsoidCode = "FA" then
      (tableCoeffs 8.3761175713442343106e-04 7.606346200814720197e-07
        1.19713032035541037e-09 2.4277772986483520e-12
        5.707722772225013e-15 1.47872454335773e-17,
       tableCoeffs (-8.3761210042019176501e-04) (-5.904169154078546237e-08)
        (-1.67276212891429215e-10) (-2.1635549847939549e-13)
        (-3.785212121016612e-16) (-7.23053625983667e-19))
    else if ellipsoidCode = "WD" then
      (tableCoeffs 8.3772481044362217923e-04 7.608400388863560936e-07
        1.19761541904924067e-09 2.4290893081322466e-12
        5.711579173743133e-15 1.47992364667635e-17,
       tableCoeffs (-8.3772515386847544554e-04) (-5.905770828762463028e-08)
        (-1.67344058948464124e-10) (-2.1647255130188214e-13)
        (-3.787772179729998e-16) (-7.23640523525528e-19))
    else if ellipsoidCode = "WE" then
      (tableCoeffs 8.3773182062446983032e-04 7.608527773572489156e-07
        1.19764550324249210e-09 2.4291706803973131e-12
        5.711818369154105e-15 1.47999802705262e-17,
       tableCoeffs (-8.3773216405794867707e-04) (-5.905870152220365181e-08)
        (-1.67348266534382493e-10) (-2.1647981104903862e-13)
        (-3.787930968839601e-16) (-7.23676928796690e-19))
    else if ellipsoidCode = "RF" then
      (tableCoeffs 8.3773182472855134012e-04 7.608527848149655006e-07
        1.19764552085530681e-09 2.4291707280369697e-12
        5.711818509192422e-15 1.47999807059922e-17,
       tableCoeffs (-8.3773216816203523672e-04) (-5.905870210369121594e-08)
        (-1.67348268997717031e-10) (-2.1647981529928124e-13)
        (-3.787931061803592e-16) (-7.23676950110361e-19))
    else if ellipsoidCode = "SA" ∨ ellipsoidCode = "AN" then
      (tableCoeffs 8.3775209887947194075e-04 7.608896263599627157e-07
        1.19773253021831769e-09 2.4294060763606098e-12
        5.712510331613028e-15 1.48021320370432e-17,
       tableCoeffs (-8.3775244233790270051e-04) (-5.906157468586898015e-08)
        (-1.67360438158764851e-10) (-2.1650081225048788e-13)
        (-3.788390325953455e-16) (-7.23782246429908e-19))
    else if ellipsoidCode = "ID" then
      (tableCoeffs 8.3776052087969078729e-04 7.609049308144604484e-07
        1.19776867565343872e-09 2.4295038464530901e-12
        5.712797738386076e-15 1.48030257891140e-17,
       tableCoeffs (-8.3776086434848497443e-04) (-5.906276799395007586e-08)
        (-1.67365493472742884e-10) (-2.1650953495573773e-13)
        (-3.788581120060625e-16) (-7.23825990889693e-19))
    else if ellipsoidCode = "IN" ∨ ellipsoidCode = "HO" then
      (tableCoeffs 8.4127599100356448089e-04 7.673066923431950296e-07
        1.21291995794281190e-09 2.4705731165688123e-12
        5.833780550286833e-15 1.51800420867708e-17,
       tableCoeffs (-8.4127633881644851945e-04) (-5.956193574768780571e-08)
        (-1.69484573979154433e-10) (-2.2017363465021880e-13)
        (-3.868896221495780e-16) (-7.42279219864412e-19))
    else if ellipsoidCode = "WO" then
      (tableCoeffs 8.4411652150600103279e-04 7.724989750172583427e-07
        1.22525529789972041e-09 2.5041361775549209e-12
        5.933026083631383e-15 1.54904908794521e-17,
       tableCoeffs (-8.4411687285559594196e-04) (-5.996681687064322548e-08)
        (-1.71209836918814857e-10) (-2.2316811233502163e-13)
        (-3.934782433323038e-16) (-7.57474665717687e-19))
    else if ellipsoidCode = "CC" then
      (tableCoeffs 8.4703742793654652315e-04 7.778564517658115212e-07
        1.23802665917879731e-09 2.5390045684252928e-12
        6.036484469753319e-15 1.58152259295850e-17,
       tableCoeffs (-8.4703778294785813001e-04) (-6.038459874600183555e-08)
        (-1.72996106059227725e-10) (-2.2627911073545072e-13)
        (-4.003466873888566e-16) (-7.73369749524777e-19))
    else if ellipsoidCode = "CG" then
      (tableCoeffs 8.5140099460764136776e-04 7.858945456038187774e-07
        1.25727085106103462e-09 2.5917718627340128e-12
        6.193726879043722e-15 1.63109098395549e-17,
       tableCoeffs (-8.5140135513650084564e-04) (-6.101145475063033499e-08)
        (-1.75687742410879760e-10) (-2.3098718484594067e-13)
        (-4.107860472919190e-16) (-7.97633133452512e-19))
    else if ellipsoidCode = "CD" then
      (tableCoeffs 8.5140395445291970541e-04 7.859000119464140978e-07
        1.25728397182445579e-09 2.5918079321459932e-12
        6.193834639108787e-15 1.63112504092335e-17,
       tableCoeffs (-8.5140431498554106268e-04) (-6.101188106187092184e-08)
        (-1.75689577596504470e-10) (-2.3099040312610703e-13)
        (-4.107932016207395e-16) (-7.97649804397335e-19))
    else
      -- computation below is for user defined ellipsoids
      let a2 := (-18975107) * n8 / 50803200 + 72161 * n7 / 387072 +
        7891 * n6 / 37800 + (-127) * n5 / 288 + 41 * n4 / 180 +
        5 * n3 / 16 + (-2) * n2 / 3 + 1 * n1 / 2
      let a4 := 148003883 * n8 / 174182400 + 13769 * n7 / 28800 +
        (-1983433) * n6 / 1935360 + 281 * n5 / 630 + 557 * n4 / 1440 +
        (-3) * n3 / 5 + 13 * n2 / 48
      let a6 := 79682431 * n8 / 79833600 + (-67102379) * n7 / 29030400 +
        167603 * n6 / 181440 + 15061 * n5 / 26880 + (-103) * n4 / 140 +
        61 * n3 / 240
      let a8 := (-40176129013) * n8 / 7664025600 + 97445 * n7 / 49896 +
        6601661 * n6 / 7257600 + (-179) * n5 / 168 + 49561 * n4 / 161280
      let a10 := 2605413599 * n8 / 622702080 + 14644087 * n7 / 9123840 +
        (-3418889) * n6 / 1995840 + 34729 * n5 / 80640
      let a12 := 175214326799 * n8 / 58118860800 + (-30705481) * n7 / 10378368 +
        212378941 * n6 / 319334400
      let a14 := (-16759934899) * n8 / 3113510400 + 1522256789 * n7 / 1383782400
      let a16 := 1424729850961 * n8 / 743921418240
      let b2 := (-7944359) * n8 / 67737600 + 5406467 * n7 / 38707200 +
        (-96199) * n6 / 604800 + 81 * n5 / 512 + 1 * n4 / 360 +
        (-37) * n3 / 96 + 2 * n2 / 3 + (-1) * n1 / 2
      let b4 := (-24749483) * n8 / 348364800 + (-51841) * n7 / 1209600 +
        1118711 * n6 / 3870720 + (-46) * n5 / 105 + 437 * n4 / 1440 +
        (-1) * n3 / 15 + (-1) * n2 / 48
      let b6 := 6457463 * n8 / 17740800 + (-9261899) * n7 / 58060800 +
        (-5569) * n6 / 90720 + 209 * n5 / 4480 + 37 * n4 / 840 +
        (-17) * n3 / 480
      let b8 := (-324154477) * n8 / 7664025600 + (-466511) * n7 / 2494800 +
        830251 * n6 / 7257600 + 11 * n5 / 504 + (-4397) * n4 / 161280
      let b10 := (-22894433) * n8 / 124540416 + 8005831 * n7 / 63866880 +
        108847 * n6 / 3991680 + (-4583) * n5 / 161280
      let b12 := 2204645983 * n8 / 12915302400 + 16363163 * n7 / 518918400 +
        (-20648693) * n6 / 638668800
      let b14 := 497323811 * n8 / 12454041600 + (-219941297) * n7 / 5535129600
      let b16 := (-191773887257) * n8 / 3719607091200
      ([a2, a4, a6, a8, a10, a12, a14, a16],
       [b2, b4, b6, b8, b10, b12, b14, b16])
  let R4oa := (49 * n10 / 65536 + 25 * n8 / 16384 + n6 / 256 + n4 / 64 + n2 / 4 + 1) / (1 + n1)
  (n1, ab.1, ab.2, R4oa)

/-- Construction state of a TransverseMercator instance: the fields of the
Go struct that are determined by rational arithmetic.  The eccentricity
field (`tranMercEps`, a square root) is outside the rational fragment and is
not modelled; no claim concerns it. -/
structure TMState where
  semiMajorAxis : ℚ
  flattening : ℚ
  ellipsCode : String
  tranMercACoeff : List ℚ
  tranMercBCoeff : List ℚ
  tranMercOriginLat : ℚ
  tranMercOriginLong : ℚ
  TranMercFalseNorthing : ℚ
  tranMercFalseEasting : ℚ
  tranMercScaleFactor : ℚ
  tranMercK0R4 : ℚ
deriving DecidableEq, Repr

/-- Translation of `NewTransverseMercator` (transversemercator.go lines
44-101), restricted to the rational construction state.  The struct literal
of the source initialises `ellipsCode` to the zero value "" and the field is
never assigned from the `ellipsoidCode` parameter; `generateCoefficients`
is then called with `t.ellipsCode` (line 95-96), i.e. with "". -/
def NewTransverseMercatorState
    (ellipsoidSemiMajorAxis ellipsoidFlattening centralMeridian
      latitudeOfTrueScale falseEasting falseNorthing scaleFactor : ℚ)
    (ellipsoidCode : String) : Except Err TMState :=
  let invFlattening := 1 / ellipsoidFlattening
  if ellipsoidCode = "" then .error "missing ellipsoid code"
  else if ellipsoidSemiMajorAxis ≤ 0 then .error "Semi-major axis must be greater than zero"
  else if invFlattening < 150 then .error "inverse ellipsoid flattening out of range"
  else if (latitudeOfTrueScale < -mathPi / 2) ∨ (latitudeOfTrueScale > mathPi / 2) then
    .error "latitudeOfTrueScale out of range"
  else if (centralMeridian < -mathPi) ∨ (centralMeridian > 2 * mathPi) then
    .error "centralMeridian out of range"
  else if (scaleFactor < 0.1) ∨ (scaleFactor > 10) then
    .error "scale factor out of range"
  else
    let ellipsCode := ""
    let tranMercOriginLong := if centralMeridian > mathPi then centralMeridian - 2 * mathPi
                              else centralMeridian
    let g := generateCoefficients invFlattening ellipsCode
    let R4oa := g.2.2.2
    .ok { semiMajorAxis := ellipsoidSemiMajorAxis
          flattening := ellipsoidFlattening
          ellipsCode := ellipsCode
          tranMercACoeff := g.2.1
          tranMercBCoeff := g.2.2.1
          tranMercOriginLat := latitudeOfTrueScale
          tranMercOriginLong := tranMercOriginLong
          TranMercFalseNorthing := falseNorthing
          tranMercFalseEasting := falseEasting
          tranMercScaleFactor := scaleFactor
          tranMercK0R4 := R4oa * scaleFactor * ellipsoidSemiMajorAxis }

-- ## Concrete instances used by witnesses and counterexamples

/-- A trivially successful TransverseMercator behaviour, used to instantiate
the abstract kernel in witnesses. -/
def tmBehaviorOk : TMBehavior :=
  ⟨fun _ => .ok ⟨500000, 0⟩, fun _ => .ok ⟨0, 0⟩⟩

/-- A trivially successful PolarStereographic behaviour. -/
def psBehaviorOk : PSBehavior :=
  ⟨fun _ => .ok ⟨2000000, 2000000⟩, fun _ => .ok ⟨0, 0⟩⟩

/-- A PolarStereographic behaviour that always fails, used to exhibit how
`UPS.ConvertFromGeodetic` discards the sub-conversion error. -/
def psBehaviorErr : PSBehavior :=
  ⟨fun _ => .error "latitide out of range", fun _ => .error "latitide out of range"⟩

/-- A trivial abstract TransverseMercator kernel. -/
def tmCoreTrivial : TMCore := fun _ _ _ _ _ _ _ _ => tmBehaviorOk

/-- A concrete UTM converter record (WGS84 code, no override, trivial
kernel). -/
def utmExample : UTM := ⟨"WE", 0, fun _ => tmBehaviorOk⟩

/-- A concrete UPS converter record, with `UPSOriginLatitude` at the value
`NewUPS` gives it (ups.go line 61). -/
def upsExample : UPS :=
  ⟨6378137, 1 / 298.257223563, upsMaxOriginLat, psBehaviorOk, psBehaviorOk⟩

/-- The UPS converter with failing PolarStereographic sub-converters. -/
def upsSwallowExample : UPS :=
  ⟨6378137, 1 / 298.257223563, upsMaxOriginLat, psBehaviorErr, psBehaviorErr⟩

/-- A concrete MGRS converter record. -/
def mgrsExample : MGRS := ⟨6378137, 1 / 298.257223563, upsExample, utmExample, "WE"⟩

-- ## Table lookup lemmas

/-- Row 0 of the latitude band table. -/
theorem latBandRow0 : latitudeBandsGet 0 = ⟨letterC, 1100000, -72, -80.5, 0⟩ := rfl

/-- Row 1 of the latitude band table. -/
theorem latBandRow1 : latitudeBandsGet 1 = ⟨letterD, 2000000, -64, -72, 2000000⟩ := rfl

/-- Row 2 of the latitude band table. -/
theorem latBandRow2 : latitudeBandsGet 2 = ⟨letterE, 2800000, -56, -64, 2000000⟩ := rfl

/-- Row 3 of the latitude band table. -/
theorem latBandRow3 : latitudeBandsGet 3 = ⟨letterF, 3700000, -48, -56, 2000000⟩ := rfl

/-- Row 4 of the latitude band table. -/
theorem latBandRow4 : latitudeBandsGet 4 = ⟨letterG, 4600000, -40, -48, 4000000⟩ := rfl

/-- Row 5 of the latitude band table. -/
theorem latBandRow5 : latitudeBandsGet 5 = ⟨letterH, 5500000, -32, -40, 4000000⟩ := rfl

/-- Row 6 of the latitude band table. -/
theorem latBandRow6 : latitudeBandsGet 6 = ⟨letterJ, 6400000, -24, -32, 6000000⟩ := rfl

/-- Row 7 of the latitude band table. -/
theorem latBandRow7 : latitudeBandsGet 7 = ⟨letterK, 7300000, -16, -24, 6000000⟩ := rfl

/-- Row 8 of the latitude band table. -/
theorem latBandRow8 : latitudeBandsGet 8 = ⟨letterL, 8200000, -8, -16, 8000000⟩ := rfl

/-- Row 9 of the latitude band table. -/
theorem latBandRow9 : latitudeBandsGet 9 = ⟨letterM, 9100000, 0, -8, 8000000⟩ := rfl

/-- Row 10 of the latitude band table. -/
theorem latBandRow10 : latitudeBandsGet 10 = ⟨letterN, 0, 8, 0, 0⟩ := rfl

/-- Row 11 of the latitude band table. -/
theorem latBandRow11 : latitudeBandsGet 11 = ⟨letterP, 800000, 16, 8, 0⟩ := rfl

/-- Row 12 of the latitude band table. -/
theorem latBandRow12 : latitudeBandsGet 12 = ⟨letterQ, 1700000, 24, 16, 0⟩ := rfl

/-- Row 13 of the latitude band table. -/
theorem latBandRow13 : latitudeBandsGet 13 = ⟨letterR, 2600000, 32, 24, 2000000⟩ := rfl

/-- Row 14 of the latitude band table. -/
theorem latBandRow14 : latitudeBandsGet 14 = ⟨letterS, 3500000, 40, 32, 2000000⟩ := rfl

/-- Row 15 of the latitude band table. -/
theorem latBandRow15 : latitudeBandsGet 15 = ⟨letterT, 4400000, 48, 40, 4000000⟩ := rfl

/-- Row 16 of the latitude band table. -/
theorem latBandRow16 : latitudeBandsGet 16 = ⟨letterU, 5300000, 56, 48, 4000000⟩ := rfl

/-- Row 17 of the latitude band table. -/
theorem latBandRow17 : latitudeBandsGet 17 = ⟨letterV, 6200000, 64, 56, 6000000⟩ := rfl

/-- Row 18 of the latitude band table. -/
theorem latBandRow18 : latitudeBandsGet 18 = ⟨letterW, 7000000, 72, 64, 6000000⟩ := rfl

/-- Row 19 of the latitude band table. -/
theorem latBandRow19 : latitudeBandsGet 19 = ⟨letterX, 7900000, 84.5, 72, 6000000⟩ := rfl

-- ## General helper lemmas

/-- Every row of the latitude band table carries a letter that is neither I
nor O (including the out-of-range default). -/
theorem latitudeBandsGet_letter_ne (i : ℤ) :
    (latitudeBandsGet i).letter ≠ letterI ∧ (latitudeBandsGet i).letter ≠ letterO := by
  unfold latitudeBandsGet
  by_cases hn : i.toNat < 20
  · set n := i.toNat with hdef
    interval_cases n <;> decide
  · rw [List.getD_eq_default _ _ (by simp [latitudeBands]; omega)]
    decide

/-- The third-letter skip logic never produces the letters I or O, for any
grid northing whatsoever. -/
theorem rowLetter_ne (x : ℚ) : rowLetter x ≠ letterI ∧ rowLetter x ≠ letterO := by
  simp only [rowLetter, letterH, letterN, letterI, letterO]
  generalize goInt (x / 100000) = l
  split_ifs <;> omega

/-- The second-letter low value produced by `getGridValues` is always one of
A, J, S. -/
theorem getGridValues_lo (m : MGRS) (zone : ℤ) :
    (m.getGridValues zone).1 = letterA ∨ (m.getGridValues zone).1 = letterJ ∨
      (m.getGridValues zone).1 = letterS := by
  simp only [MGRS.getGridValues, letterA, letterJ, letterS, letterH, letterR, letterZ]
  have h6 : zone % 6 = 0 ∨ zone % 6 = 1 ∨ zone % 6 = 2 ∨ zone % 6 = 3 ∨ zone % 6 = 4 ∨
      zone % 6 = 5 := by omega
  rcases h6 with h | h | h | h | h | h <;> simp [h]

/-- Bounds of the truncated 100 km easting index for an easting in the UTM
easting range. -/
theorem goInt_bounds_easting (e : ℚ) (h1 : 100000 ≤ e) (h2 : e < 900000) :
    1 ≤ goInt (e / 100000) ∧ goInt (e / 100000) ≤ 8 := by
  have hq1 : (1:ℚ) ≤ e / 100000 := by
    rw [le_div_iff₀ (by norm_num : (0:ℚ) < 100000)]; linarith
  have hq2 : e / 100000 < 9 := by
    rw [div_lt_iff₀ (by norm_num : (0:ℚ) < 100000)]; linarith
  unfold goInt
  rw [if_neg (not_lt.mpr (by linarith : (0:ℚ) ≤ e / 100000))]
  constructor
  · exact Int.le_floor.mpr (by exact_mod_cast hq1)
  · have h9 : ⌊e / 100000⌋ < 9 := Int.floor_lt.mpr (by exact_mod_cast hq2)
    omega

/-- The second letter of the UTM-path encoding is never I or O for eastings
in the range reachable at that program point. -/
theorem fromUTMLetter1_ne (m : MGRS) (zone : ℤ) (easting : ℚ)
    (h1 : 100000 ≤ easting) (h2 : easting < 900000) :
    fromUTMLetter1 (m.getGridValues zone).1 easting ≠ letterI ∧
      fromUTMLetter1 (m.getGridValues zone).1 easting ≠ letterO := by
  obtain ⟨hg1, hg2⟩ := goInt_bounds_easting easting h1 h2
  rcases getGridValues_lo m zone with hlo | hlo | hlo <;>
    (simp only [fromUTMLetter1, hlo, letterA, letterJ, letterS, letterN, letterI, letterO]
     revert hg1 hg2
     generalize goInt (easting / 100000) = g
     intro hg1 hg2
     split_ifs <;>
       first
       | omega
       | (rename_i hco
          simp only [true_and] at hco
          omega))

/-- The second letter of the UPS-path encoding, western half (first letter A
or Y, false easting 800000), is never I or O for eastings in the range
reachable from the polar conversion. -/
theorem upsSecondLetter_low_ne (e : ℚ) (h1 : 700000 < e) (h2 : e < 2000000) :
    upsSecondLetter letterJ e (e - 800000) ≠ letterI ∧
      upsSecondLetter letterJ e (e - 800000) ≠ letterO := by
  have hgl : 0 ≤ goInt ((e - 800000) / 100000) ∧ goInt ((e - 800000) / 100000) ≤ 11 := by
    unfold goInt
    split_ifs with hneg
    · have c1 : ⌈(e - 800000) / 100000⌉ ≤ 0 := Int.ceil_le.mpr (by push_cast; linarith)
      have c2 : (-1 : ℤ) < ⌈(e - 800000) / 100000⌉ := Int.lt_ceil.mpr (by
        push_cast
        rw [neg_lt, ← neg_div, div_lt_iff₀ (by norm_num : (0:ℚ) < 100000)]
        linarith)
      omega
    · have f1 : (0:ℤ) ≤ ⌊(e - 800000) / 100000⌋ := Int.floor_nonneg.mpr (by linarith)
      have f2 : ⌊(e - 800000) / 100000⌋ < 12 := Int.floor_lt.mpr (by
        push_cast
        rw [div_lt_iff₀ (by norm_num : (0:ℚ) < 100000)]
        linarith)
      omega
  simp only [upsSecondLetter, letterJ, letterL, letterU, letterI, letterO] at hgl ⊢
  rw [if_pos h2]
  generalize hgen : goInt ((e - 800000) / 100000) = g at hgl
  split_ifs <;> omega

/-- The second letter of the UPS-path encoding, eastern half (first letter B
or Z, false easting 2000000), is never I or O for eastings in the UPS
range. -/
theorem upsSecondLetter_high_ne (e : ℚ) (h1 : 2000000 ≤ e) (h2 : e ≤ 4000000) :
    upsSecondLetter letterA e (e - 2000000) ≠ letterI ∧
      upsSecondLetter letterA e (e - 2000000) ≠ letterO := by
  have hgl : 0 ≤ goInt ((e - 2000000) / 100000) ∧ goInt ((e - 2000000) / 100000) ≤ 20 := by
    unfold goInt
    rw [if_neg (not_lt.mpr (by
      apply div_nonneg _ (by norm_num : (0:ℚ) ≤ 100000)
      linarith))]
    refine ⟨Int.floor_nonneg.mpr (by
      apply div_nonneg _ (by norm_num : (0:ℚ) ≤ 100000)
      linarith), ?_⟩
    have f2 : ⌊(e - 2000000) / 100000⌋ < 21 := Int.floor_lt.mpr (by
      push_cast
      rw [div_lt_iff₀ (by norm_num : (0:ℚ) < 100000)]
      linarith)
    omega
  simp only [upsSecondLetter, letterA, letterC, letterH, letterL, letterI, letterO] at hgl ⊢
  rw [if_neg (not_lt.mpr h1)]
  generalize hgen : goInt ((e - 2000000) / 100000) = g at hgl
  split_ifs <;> omega

/-- A successful latitude-band letter lookup never yields I or O. -/
theorem getLatitudeLetter_ne (lat : ℚ) (l : ℤ) (h : getLatitudeLetter lat = .ok l) :
    l ≠ letterI ∧ l ≠ letterO := by
  simp only [getLatitudeLetter] at h
  split_ifs at h <;>
    (injection h with h2
     subst h2
     first
     | decide
     | exact latitudeBandsGet_letter_ne _)

/-- The latitude-band letter lookup fails for 85 degrees. -/
theorem getLatitudeLetter_85 :
    getLatitudeLetter (85 * mathPi / 180) = .error "latitude out of range" := by
  norm_num [getLatitudeLetter, mathPi]

/-- The tail of the UTM forward conversion (after the latitude check) never
produces the latitude-range error, provided the sub-projections do not. -/
theorem utmRest_ne_lat_err (u : UTM) (latitude longitude : ℚ) (a b tz ov : ℤ)
    (htm : ∀ z c e, (u.transverseMercatorMap z).convertFromGeodetic c = .error e →
      e ≠ "latitude out of range ") :
    utmRest u latitude longitude a b tz ov ≠ .error "latitude out of range " := by
  intro h
  unfold utmRest at h
  repeat' split at h
  all_goals try simp_all
  all_goals (repeat' split at h)
  all_goals simp_all
  all_goals exact htm _ _ _ (by assumption) rfl

/-- The tail of the UTM forward conversion reports the northern hemisphere
whenever the (clamped) latitude is not negative. -/
theorem utmRest_hemisphere_north (u : UTM) (latitude longitude : ℚ) (a b tz ov : ℤ)
    (hlat : ¬latitude < 0) (r : UTMCoord)
    (h : utmRest u latitude longitude a b tz ov = .ok r) : r.Hemisphere = .North := by
  unfold utmRest at h
  simp only [hlat] at h
  repeat' split at h
  all_goals try simp_all
  all_goals first
    | simp_all
    | (subst h; rfl)

set_option maxHeartbeats 2000000 in
/-- The band-consistency check of `toUTM` succeeds exactly when the claimed
band itself (with border tolerance) contains the decoded latitude: the
`prevInRange && nextInRange` acceptance of the source requires the latitude
to lie in both adjacent bands at once, which is impossible for 8-degree-tall
bands with a border of at most one degree. -/
theorem latBandAdjCheck_exact_iff (m : MGRS) (letter0 : ℤ) (lat border : ℚ)
    (hb : border ≤ mathPi / 180) :
    m.latBandAdjCheck letter0 lat border = .ok () ↔
      m.inLatitudeRange letter0 lat border = .ok true := by
  have hpi : (0:ℚ) < mathPi := by norm_num [mathPi]
  rcases hE : m.inLatitudeRange letter0 lat border with e | b
  · simp only [MGRS.latBandAdjCheck, hE]
    simp
  · cases b
    case ok.true =>
      simp only [MGRS.latBandAdjCheck, hE]
      simp
    case ok.false =>
      have hrange : 2 ≤ letter0 ∧ letter0 ≤ 23 := by
        by_contra hcon
        push_neg at hcon
        have n1 : ¬((letter0 ≥ letterC) ∧ (letter0 ≤ letterH)) := by
          simp only [letterC, letterH]; omega
        have n2 : ¬((letter0 ≥ letterJ) ∧ (letter0 ≤ letterN)) := by
          simp only [letterJ, letterN]; omega
        have n3 : ¬((letter0 ≥ letterP) ∧ (letter0 ≤ letterX)) := by
          simp only [letterP, letterX]; omega
        rw [MGRS.inLatitudeRange, if_neg n1, if_neg n2, if_neg n3] at hE
        exact Except.noConfusion hE
      obtain ⟨hlo, hhi⟩ := hrange
      simp only [MGRS.latBandAdjCheck, hE]
      interval_cases letter0 <;>
      first
      | (exfalso; revert hE; simp +decide [MGRS.inLatitudeRange]; done)
      | (refine iff_of_false (fun hcc => ?_) (by simp)
         try simp only [hE] at hcc
         simp +decide [MGRS.inLatitudeRange, latBandRow0, latBandRow1, latBandRow2,
           latBandRow3, latBandRow4, latBandRow5, latBandRow6, latBandRow7, latBandRow8,
           latBandRow9, latBandRow10, latBandRow11, latBandRow12, latBandRow13,
           latBandRow14, latBandRow15, latBandRow16, latBandRow17, latBandRow18,
           latBandRow19] at hcc
         try (simp +decide [MGRS.inLatitudeRange, latBandRow0, latBandRow1, latBandRow2,
                latBandRow3, latBandRow4, latBandRow5, latBandRow6, latBandRow7, latBandRow8,
                latBandRow9, latBandRow10, latBandRow11, latBandRow12, latBandRow13,
                latBandRow14, latBandRow15, latBandRow16, latBandRow17, latBandRow18,
                latBandRow19] at hE
              first
              | linarith [hcc.1, hcc.2.1, hcc.2.2.1, hcc.2.2.2]
              | linarith [hcc.1, hcc.2.1, hcc.2.2.1, hcc.2.2.2, hE hcc.1]
              | linarith [hcc.1, hcc.2.1, hcc.2.2.1, hcc.2.2.2, hE hcc.2.2.1]))

-- ## Claim theorems

/-- Claim C2, amended: a UPS conversion call mutates exactly one field of the
shared converter instance, the hemisphere-dependent `UPSOriginLatitude`;
every other field is left unchanged for every input.  On every call passing
input validation the field is overwritten with the origin latitude of the
hemisphere chosen for that call: +81.114528 degrees (in radians) when the
northern hemisphere is chosen (forward: latitude >= 0; inverse: input
hemisphere North), its negation when the southern hemisphere is chosen; a
call rejected by input validation returns before the write and leaves the
instance entirely unchanged. -/
theorem ups_convert_frame_only_upsOriginLatitude (u : UPS) (g : LatLng) (c : UPSCoord) :
    ((u.ConvertFromGeodetic g).1.semiMajorAxis = u.semiMajorAxis ∧
     (u.ConvertFromGeodetic g).1.flattening = u.flattening ∧
     (u.ConvertFromGeodetic g).1.polarStereographicMapN = u.polarStereographicMapN ∧
     (u.ConvertFromGeodetic g).1.polarStereographicMapS = u.polarStereographicMapS) ∧
    (∀ r, (u.ConvertFromGeodetic g).2 = .ok r →
      (u.ConvertFromGeodetic g).1.UPSOriginLatitude =
        (if g.Lat < 0 then -upsMaxOriginLat else upsMaxOriginLat) ∧
      r.Hemisphere = (if g.Lat < 0 then Hemisphere.South else Hemisphere.North)) ∧
    (∀ e, (u.ConvertFromGeodetic g).2 = .error e → (u.ConvertFromGeodetic g).1 = u) ∧
    ((u.ConvertToGeodetic c).1.semiMajorAxis = u.semiMajorAxis ∧
     (u.ConvertToGeodetic c).1.flattening = u.flattening ∧
     (u.ConvertToGeodetic c).1.polarStereographicMapN = u.polarStereographicMapN ∧
     (u.ConvertToGeodetic c).1.polarStereographicMapS = u.polarStereographicMapS) ∧
    ((c.Hemisphere = .North ∨ c.Hemisphere = .South) →
      upsMinEastNorth ≤ c.Easting → c.Easting ≤ upsMaxEastNorth →
      upsMinEastNorth ≤ c.Northing → c.Northing ≤ upsMaxEastNorth →
      (u.ConvertToGeodetic c).1.UPSOriginLatitude =
        (if c.Hemisphere = .North then upsMaxOriginLat else -upsMaxOriginLat)) ∧
    (((c.Hemisphere ≠ .North ∧ c.Hemisphere ≠ .South) ∨
        c.Easting < upsMinEastNorth ∨ c.Easting > upsMaxEastNorth ∨
        c.Northing < upsMinEastNorth ∨ c.Northing > upsMaxEastNorth) →
      (u.ConvertToGeodetic c).1 = u) := by
  refine ⟨?_, ?_, ?_, ?_, ?_, ?_⟩
  · simp only [UPS.ConvertFromGeodetic]
    split_ifs <;> simp
  · intro r hr
    revert hr
    simp only [UPS.ConvertFromGeodetic]
    split_ifs <;> intro hr <;> (try simp_all) <;> (subst hr; rfl)
  · intro e he
    revert he
    simp only [UPS.ConvertFromGeodetic]
    split_ifs <;> intro he <;> first | rfl | exact absurd he (by simp)
  · simp only [UPS.ConvertToGeodetic]
    split_ifs <;> (try split) <;> (try split_ifs) <;> simp
  · intro hhem h1 h2 h3 h4
    have g1 : ¬(c.Hemisphere ≠ Hemisphere.North ∧ c.Hemisphere ≠ Hemisphere.South) := by
      tauto
    have g2 : ¬(c.Easting < upsMinEastNorth ∨ c.Easting > upsMaxEastNorth) := by
      rw [not_or]
      exact ⟨not_lt.mpr h1, not_lt.mpr h2⟩
    have g3 : ¬(c.Northing < upsMinEastNorth ∨ c.Northing > upsMaxEastNorth) := by
      rw [not_or]
      exact ⟨not_lt.mpr h3, not_lt.mpr h4⟩
    simp only [UPS.ConvertToGeodetic]
    rw [if_neg g1, if_neg g2, if_neg g3]
    repeat' split
    all_goals simp_all
  · intro h
    simp only [UPS.ConvertToGeodetic]
    split_ifs with g1 g2 g3
    all_goals first | rfl | (exfalso; tauto)

/-- Witness for claim C2's theorem at concrete inputs: the south-pole forward
call, an in-range northern inverse call, and an invalid-hemisphere inverse
call, with every hypothesis discharged. -/
theorem ups_convert_frame_only_upsOriginLatitude_witness :
    ((upsExample.ConvertFromGeodetic ⟨-85 * mathPi / 180, 0⟩).2 =
        .ok ⟨.South, 2000000, 2000000⟩ ∧
     (upsExample.ConvertFromGeodetic ⟨-85 * mathPi / 180, 0⟩).1.UPSOriginLatitude =
        (if (-85 * mathPi / 180 : ℚ) < 0 then -upsMaxOriginLat else upsMaxOriginLat) ∧
     (UPSCoord.mk .South 2000000 2000000).Hemisphere =
        (if (-85 * mathPi / 180 : ℚ) < 0 then Hemisphere.South else Hemisphere.North)) ∧
    ((Hemisphere.North = Hemisphere.North ∨ Hemisphere.North = Hemisphere.South) ∧
     upsMinEastNorth ≤ (2000000 : ℚ) ∧ (2000000 : ℚ) ≤ upsMaxEastNorth ∧
     (upsExample.ConvertToGeodetic ⟨.North, 2000000, 2000000⟩).1.UPSOriginLatitude =
        (if (UPSCoord.mk Hemisphere.North 2000000 2000000).Hemisphere = Hemisphere.North
         then upsMaxOriginLat else -upsMaxOriginLat)) ∧
    ((Hemisphere.Invalid ≠ Hemisphere.North ∧ Hemisphere.Invalid ≠ Hemisphere.South) ∧
     (upsExample.ConvertToGeodetic ⟨.Invalid, 0, 0⟩).1 = upsExample) := by
  have hr : (upsExample.ConvertFromGeodetic ⟨-85 * mathPi / 180, 0⟩).2 =
      .ok ⟨.South, 2000000, 2000000⟩ := by
    norm_num [UPS.ConvertFromGeodetic, upsExample, psBehaviorOk, upsMaxLat, upsMaxSouthLat,
      upsMinNorthLat, upsMaxOriginLat, epsilonRadians, mathPi]
  have h2 := (ups_convert_frame_only_upsOriginLatitude upsExample ⟨-85 * mathPi / 180, 0⟩
      ⟨.North, 2000000, 2000000⟩).2.1 ⟨.South, 2000000, 2000000⟩ hr
  have h5 := (ups_convert_frame_only_upsOriginLatitude upsExample ⟨0, 0⟩
      ⟨.North, 2000000, 2000000⟩).2.2.2.2.1 (Or.inl rfl)
      (by norm_num [upsMinEastNorth]) (by norm_num [upsMaxEastNorth])
      (by norm_num [upsMinEastNorth]) (by norm_num [upsMaxEastNorth])
  have h6 := (ups_convert_frame_only_upsOriginLatitude upsExample ⟨0, 0⟩
      ⟨.Invalid, 0, 0⟩).2.2.2.2.2 (Or.inl ⟨by decide, by decide⟩)
  exact ⟨⟨hr, h2.1, h2.2⟩,
    ⟨Or.inl rfl, by norm_num [upsMinEastNorth], by norm_num [upsMaxEastNorth], h5⟩,
    ⟨⟨by decide, by decide⟩, h6⟩⟩

/-- Counterexample to claim C2 as stated: converting the south-pole point
(latitude -85 degrees) writes the southern origin latitude onto the shared
`UPSOriginLatitude` field, so the field after the call differs from its
value at construction. -/
theorem ups_convertFromGeodetic_mutates_origin_cex :
    ((upsExample.ConvertFromGeodetic ⟨-85 * mathPi / 180, 0⟩).1).UPSOriginLatitude ≠
      upsExample.UPSOriginLatitude := by
  norm_num [UPS.ConvertFromGeodetic, upsExample, upsMaxLat, upsMaxSouthLat, upsMinNorthLat,
    upsMaxOriginLat, epsilonRadians, mathPi]

/-- Claim C3, code behaviour at the failing inputs: `breakMGRSString` scans
leading digits without a bounds check, so for the empty string and for the
all-digit string "123" the scan indexes one past the end of the string and
the program aborts with a runtime panic; `MGRS.ConvertToGeodetic` propagates
the abort instead of returning a typed error. -/
theorem mgrs_decode_panics_on_all_digit_input :
    (∀ m : MGRS, m.ConvertToGeodetic "" = .panic) ∧
    (∀ m : MGRS, m.ConvertToGeodetic "123" = .panic) ∧
    breakMGRSString "" = .panic ∧ breakMGRSString "123" = .panic := by
  refine ⟨fun m => ?_, fun m => ?_, by decide, by decide⟩
  · simp only [MGRS.ConvertToGeodetic, show breakMGRSString "" = .panic from by decide]
  · simp only [MGRS.ConvertToGeodetic, show breakMGRSString "123" = .panic from by decide]

/-- Claim C4, code behaviour at the failing input: constructing a
TransverseMercator for the WGS84 ellipsoid with code "WE" succeeds, but the
stored A-series coefficients are the ones computed by the closed-form
polynomials with an empty ellipsoid code (the `ellipsCode` struct field is
never assigned from the constructor parameter), and the first stored
coefficient differs from the "WE" table entry that the claim says is used;
the table branch for "WE" does hold that entry. -/
theorem newTransverseMercator_WE_ignores_coefficient_table :
    ((NewTransverseMercatorState 6378137 (1 / 298.257223563) 0 0 500000 0 0.9996 "WE").map
       (fun st => st.tranMercACoeff)) = .ok ((generateCoefficients 298.257223563 "").2.1) ∧
    ((NewTransverseMercatorState 6378137 (1 / 298.257223563) 0 0 500000 0 0.9996 "WE").map
       (fun st => st.ellipsCode)) = .ok "" ∧
    (generateCoefficients 298.257223563 "").2.1.getD 0 0 ≠ (8.3773182062446983032e-4 : ℚ) ∧
    (generateCoefficients 298.257223563 "WE").2.1.getD 0 0 = (8.3773182062446983032e-4 : ℚ) := by
  refine ⟨?_, ?_, ?_, ?_⟩
  · simp +decide only [NewTransverseMercatorState, Except.map]
    norm_num [mathPi]
  · simp +decide only [NewTransverseMercatorState, Except.map]
    norm_num [mathPi]
  · simp +decide only [generateCoefficients]
    norm_num
  · simp +decide only [generateCoefficients, tableCoeffs]
    norm_num

/-- Claim C5, code behaviour: the band-consistency check of the MGRS decoder
accepts a decoded point only when the claimed latitude band itself (with
border tolerance) contains it -- the adjacent-band acceptance demands the
point to lie in both adjacent bands simultaneously, which never holds, so a
point lying in one adjacent band only is rejected.  Concretely, a square
claimed in band V whose decoded latitude is 64.05 degrees (inside the
adjacent band W) fails with the consistency error even though the adjacent
band contains it. -/
theorem mgrs_band_check_accepts_only_exact_band :
    (∀ (m : MGRS) (letter0 : ℤ) (lat border : ℚ), border ≤ mathPi / 180 →
      (m.latBandAdjCheck letter0 lat border = .ok () ↔
        m.inLatitudeRange letter0 lat border = .ok true)) ∧
    mgrsExample.latBandAdjCheck letterV (64.05 * mathPi / 180) (mathPi / 180 / 100000) =
      .error "MGRS invalid" ∧
    mgrsExample.inLatitudeRange letterW (64.05 * mathPi / 180) (mathPi / 180 / 100000) =
      .ok true := by
  refine ⟨fun m letter0 lat border hb => latBandAdjCheck_exact_iff m letter0 lat border hb,
    ?_, ?_⟩
  · norm_num [MGRS.latBandAdjCheck, MGRS.inLatitudeRange, latBandRow16, latBandRow17,
      latBandRow18, letterV, letterC, letterH, letterJ, letterN, letterP, letterX, letterI,
      letterO, letterW, mathPi]
  · norm_num [MGRS.inLatitudeRange, latBandRow18, letterW, letterC, letterH, letterJ,
      letterN, letterP, letterX, mathPi]

/-- Witness for claim C5's theorem at a concrete input: band N, latitude 0,
border of one degree. -/
theorem mgrs_band_check_accepts_only_exact_band_witness :
    (mathPi / 180 ≤ mathPi / 180) ∧
    (mgrsExample.latBandAdjCheck letterN 0 (mathPi / 180) = .ok () ↔
      mgrsExample.inLatitudeRange letterN 0 (mathPi / 180) = .ok true) :=
  ⟨le_refl (mathPi / 180),
   mgrs_band_check_accepts_only_exact_band.1 mgrsExample letterN 0 (mathPi / 180)
     (le_refl (mathPi / 180))⟩

/-- Claim C6, code behaviour at the failing inputs: when the latitude-band
letter lookup fails inside `fromUTM` (latitude 85 degrees is outside every
band), the function returns success with an empty string instead of the
error (`return "", nil` in the source); and `UPS.ConvertFromGeodetic`
discards the error of its PolarStereographic sub-conversion, returning
success with the zero-value easting/northing. -/
theorem fromUTM_and_ups_swallow_dependency_errors :
    (∀ (tmCore : TMCore) (m : MGRS) (utmC : UTMCoord) (lng : ℚ) (prec : ℤ),
        MGRS.fromUTM tmCore m utmC lng (85 * mathPi / 180) prec = .ok "") ∧
    getLatitudeLetter (85 * mathPi / 180) = .error "latitude out of range" ∧
    (upsSwallowExample.ConvertFromGeodetic ⟨85 * mathPi / 180, 0⟩).2 = .ok ⟨.North, 0, 0⟩ ∧
    psBehaviorErr.ConvertFromGeodetic ⟨85 * mathPi / 180, 0⟩ =
      .error "latitide out of range" := by
  refine ⟨?_, getLatitudeLetter_85, ?_, rfl⟩
  · intro tmCore m utmC lng prec
    simp only [MGRS.fromUTM, getLatitudeLetter_85]
  · norm_num [UPS.ConvertFromGeodetic, upsSwallowExample, psBehaviorErr, upsMaxLat,
      upsMaxSouthLat, upsMinNorthLat, upsMaxOriginLat, epsilonRadians, mathPi]

/-- Claim C7: `UTM.ConvertFromGeodetic` returns its latitude-range error
exactly for latitudes below -80.5 degrees minus epsilon or at or above 84.5
degrees plus epsilon (provided the sub-projections never produce that same
error message, which the real ones do not), and a latitude of 95 degrees
fails with a latitude-range error on both the UTM and the MGRS forward
conversions. -/
theorem utm_latitude_range_error_envelope :
    (∀ (u : UTM) (lat lng : ℚ) (ov : ℤ),
      (∀ z c e, (u.transverseMercatorMap z).convertFromGeodetic c = .error e →
        e ≠ "latitude out of range ") →
      (u.ConvertFromGeodetic ⟨lat, lng⟩ ov = .error "latitude out of range " ↔
        lat < utmMinLat - epsilonRadians ∨ lat ≥ utmMaxLat + epsilonRadians)) ∧
    (∀ (u : UTM) (lng : ℚ) (ov : ℤ),
      u.ConvertFromGeodetic ⟨95 * mathPi / 180, lng⟩ ov = .error "latitude out of range ") ∧
    (∀ (tmCore : TMCore) (m : MGRS) (lng : ℚ) (prec : ℤ),
      MGRS.ConvertFromGeodetic tmCore m ⟨95 * mathPi / 180, lng⟩ prec =
        .error "latitude out of range") := by
  refine ⟨fun u lat lng ov htm => ⟨fun h => ?_, fun hcond => ?_⟩, fun u lng ov => ?_,
    fun tmCore m lng prec => ?_⟩
  · by_contra hn
    simp only [UTM.ConvertFromGeodetic] at h
    rw [if_neg hn] at h
    repeat' split at h
    all_goals try simp_all
    all_goals exact utmRest_ne_lat_err u _ _ _ _ _ _ htm h
  · simp only [UTM.ConvertFromGeodetic]
    rw [if_pos hcond]
  · simp only [UTM.ConvertFromGeodetic]
    rw [if_pos (Or.inr (by norm_num [utmMaxLat, epsilonRadians, mathPi] :
      (95 * mathPi / 180 : ℚ) ≥ utmMaxLat + epsilonRadians))]
  · simp only [MGRS.ConvertFromGeodetic]
    rw [if_pos (Or.inr (by norm_num [mathPi] : (95 * mathPi / 180 : ℚ) > mathPi / 2))]

/-- Witness for claim C7's theorem: the concrete WGS84-style UTM record with
a trivially successful kernel, at latitude 95 degrees. -/
theorem utm_latitude_range_error_envelope_witness :
    (∀ z c e, (utmExample.transverseMercatorMap z).convertFromGeodetic c = .error e →
      e ≠ "latitude out of range ") ∧
    (utmExample.ConvertFromGeodetic ⟨95 * mathPi / 180, 0⟩ 0 =
        .error "latitude out of range " ↔
      95 * mathPi / 180 < utmMinLat - epsilonRadians ∨
        95 * mathPi / 180 ≥ utmMaxLat + epsilonRadians) := by
  have htm : ∀ z c e, (utmExample.transverseMercatorMap z).convertFromGeodetic c = .error e →
      e ≠ "latitude out of range " := by
    intro z c e h
    simp [utmExample, tmBehaviorOk] at h
  exact ⟨htm, utm_latitude_range_error_envelope.1 utmExample (95 * mathPi / 180) 0 0 htm⟩

/-- Claim C8, code behaviour at the failing input: `breakMGRSString` does
not strip spaces; a space character fails the character-class validation, so
"31 NAA" is rejected with the invalid-character error while its space-free
form "31NAA" decodes successfully. -/
theorem breakMGRSString_rejects_spaces :
    breakMGRSString "31 NAA" = .err "invalid character" ∧
    breakMGRSString "31NAA" = .ok ⟨31, [13, 0, 0], 0, 0, 0⟩ :=
  ⟨by decide, by decide⟩

/-- Claim C9: no letter of an MGRS encoding is I or O.  The first letter of
the UTM path comes from `getLatitudeLetter`, whose band table contains
neither letter; the third letter of both paths comes from the
`rowLetter` skip logic, which can never produce either letter; the second
letter of the UTM path (`fromUTMLetter1`) avoids both letters for every
easting in the range reachable at that program point ([100000, 900000),
established by the zone-placement reconversions); and the second letter of
the UPS path (`upsSecondLetter`, in its two parameterisations: first letter
A or Y with false easting 800000, and B or Z with false easting 2000000)
avoids both letters for every easting reachable from the polar conversion
(above 700000 meters).  The first letter of the UPS path is drawn directly
from the literals A, B, Y, Z in `fromUPS`. -/
theorem mgrs_encoding_letters_never_i_or_o :
    (∀ (lat : ℚ) (l : ℤ), getLatitudeLetter lat = .ok l → l ≠ letterI ∧ l ≠ letterO) ∧
    (∀ x : ℚ, rowLetter x ≠ letterI ∧ rowLetter x ≠ letterO) ∧
    (∀ (m : MGRS) (zone : ℤ) (e : ℚ), 100000 ≤ e → e < 900000 →
      fromUTMLetter1 (m.getGridValues zone).1 e ≠ letterI ∧
        fromUTMLetter1 (m.getGridValues zone).1 e ≠ letterO) ∧
    (∀ e : ℚ, 700000 < e → e < 2000000 →
      upsSecondLetter letterJ e (e - 800000) ≠ letterI ∧
        upsSecondLetter letterJ e (e - 800000) ≠ letterO) ∧
    (∀ e : ℚ, 2000000 ≤ e → e ≤ 4000000 →
      upsSecondLetter letterA e (e - 2000000) ≠ letterI ∧
        upsSecondLetter letterA e (e - 2000000) ≠ letterO) :=
  ⟨getLatitudeLetter_ne, rowLetter_ne, fromUTMLetter1_ne, upsSecondLetter_low_ne,
   upsSecondLetter_high_ne⟩

/-- Witness for claim C9's theorem at concrete inputs with all hypotheses
discharged. -/
theorem mgrs_encoding_letters_never_i_or_o_witness :
    ((100000:ℚ) ≤ 500000 ∧ (500000:ℚ) < 900000 ∧
      (fromUTMLetter1 (mgrsExample.getGridValues 31).1 500000 ≠ letterI ∧
       fromUTMLetter1 (mgrsExample.getGridValues 31).1 500000 ≠ letterO)) ∧
    ((700000:ℚ) < 1000000 ∧ (1000000:ℚ) < 2000000 ∧
      (upsSecondLetter letterJ 1000000 (1000000 - 800000) ≠ letterI ∧
       upsSecondLetter letterJ 1000000 (1000000 - 800000) ≠ letterO)) ∧
    ((2000000:ℚ) ≤ 2500000 ∧ (2500000:ℚ) ≤ 4000000 ∧
      (upsSecondLetter letterA 2500000 (2500000 - 2000000) ≠ letterI ∧
       upsSecondLetter letterA 2500000 (2500000 - 2000000) ≠ letterO)) :=
  ⟨⟨by norm_num, by norm_num,
    mgrs_encoding_letters_never_i_or_o.2.2.1 mgrsExample 31 500000 (by norm_num) (by norm_num)⟩,
   ⟨by norm_num, by norm_num,
    mgrs_encoding_letters_never_i_or_o.2.2.2.1 1000000 (by norm_num) (by norm_num)⟩,
   ⟨by norm_num, by norm_num,
    mgrs_encoding_letters_never_i_or_o.2.2.2.2 2500000 (by norm_num) (by norm_num)⟩⟩

/-- Claim C10: a latitude strictly between -1e-9 radians and 0 is clamped to
exactly 0 by `UTM.ConvertFromGeodetic`, so the conversion result equals the
result for latitude 0 at the same longitude, and any successful result
reports the northern hemisphere (no 10,000,000 m southern false northing is
added, since the false northing and the hemisphere are chosen from the
clamped latitude). -/
theorem utm_tiny_negative_latitude_clamped_to_zero (u : UTM) (lat lng : ℚ) (ov : ℤ)
    (h1 : -1.0e-9 < lat) (h2 : lat < 0) :
    u.ConvertFromGeodetic ⟨lat, lng⟩ ov = u.ConvertFromGeodetic ⟨0, lng⟩ ov ∧
    (∀ r, u.ConvertFromGeodetic ⟨lat, lng⟩ ov = .ok r → r.Hemisphere = .North) := by
  have hlt : utmMinLat - epsilonRadians < -1.0e-9 := by
    norm_num [utmMinLat, epsilonRadians, mathPi]
  have hgt : (0:ℚ) < utmMaxLat + epsilonRadians := by
    norm_num [utmMaxLat, epsilonRadians, mathPi]
  have c1 : ¬((lat < utmMinLat - epsilonRadians) ∨ (lat ≥ utmMaxLat + epsilonRadians)) := by
    rw [not_or]
    exact ⟨not_lt.mpr (by linarith), not_le.mpr (by linarith)⟩
  have c0 : ¬(((0:ℚ) < utmMinLat - epsilonRadians) ∨ ((0:ℚ) ≥ utmMaxLat + epsilonRadians)) := by
    rw [not_or]
    exact ⟨not_lt.mpr (by linarith), not_le.mpr (by linarith)⟩
  have hclA : (if (lat > -1.0e-9) ∧ (lat < 0) then (0:ℚ) else lat) = 0 := if_pos ⟨h1, h2⟩
  have hclB : (if ((0:ℚ) > -1.0e-9) ∧ ((0:ℚ) < 0) then (0:ℚ) else (0:ℚ)) = 0 := ite_self 0
  have heq : u.ConvertFromGeodetic ⟨lat, lng⟩ ov = u.ConvertFromGeodetic ⟨0, lng⟩ ov := by
    simp only [UTM.ConvertFromGeodetic]
    rw [if_neg c1, if_neg c0, hclA, hclB]
  refine ⟨heq, fun r hr => ?_⟩
  rw [heq] at hr
  simp only [UTM.ConvertFromGeodetic] at hr
  rw [if_neg c0, hclB] at hr
  have hz : ¬(0:ℚ) < 0 := by norm_num
  repeat' split at hr
  all_goals first
    | exact Except.noConfusion hr
    | exact utmRest_hemisphere_north u _ _ _ _ _ _ hz r hr

/-- Witness for claim C10's theorem at the concrete latitude -1e-10. -/
theorem utm_tiny_negative_latitude_clamped_to_zero_witness :
    (-1.0e-9 : ℚ) < -1.0e-10 ∧ (-1.0e-10 : ℚ) < 0 ∧
    utmExample.ConvertFromGeodetic ⟨-1.0e-10, 0⟩ 0 = utmExample.ConvertFromGeodetic ⟨0, 0⟩ 0 :=
  ⟨by norm_num, by norm_num,
   (utm_tiny_negative_latitude_clamped_to_zero utmExample (-1.0e-10) 0 0 (by norm_num)
     (by norm_num)).1⟩
